import Mathlib

/-!
Verification of the aimux session/subprocess orchestration engine.

This file gives a shallow embedding of the Go sources (`pkg/aimux/flow.go`,
`pkg/aimux/config.go`, and the core-type file defining `Context`,
`ValidateCall`, the path helpers, and the system-prompt builders) and proves
properties of that embedding.

Modelling conventions, used throughout:
* Go `string` is Lean `String`; Go `len(s)` (a byte count) is
  `String.utf8ByteSize`.
* Go `int` is Lean `Int` where sign matters (`LVL`), `Nat` for counters.
* Go `map[string]string` is an association list with first-match lookup
  and overwrite-on-insert (Go map iteration order is not relied on by any
  modelled code path except `RenderFlags`, where the model fixes the list
  order).
* Go's `strings.Contains`/`Split`/`SplitN` on the single separator `"~"`
  are re-implemented by structural recursion on the character list so that
  concrete instances reduce inside the kernel.
* `encoding/json` values are modelled by the inductive `JVal`; a line of
  subprocess output is an `RLine`, carrying both its raw text and the
  result of `json.Unmarshal` on it (`none` when unmarshalling fails).
* The filesystem is a `World`: a set of existing directories and a map
  from path to file content (a list of lines). `os.WriteFile` fails when
  the containing directory does not exist; `os.MkdirAll` always succeeds
  in the model.
* `crypto/rand`-backed `NewID` is modelled by an explicit supply of fresh
  identifiers threaded through the functions that mint ids.
* `time.Now()` is modelled as the constant 0; no modelled property
  inspects timestamps.
-/

set_option maxHeartbeats 1000000

namespace Aimux

/-- Go: `type ID string`. -/
abbrev ID := String

/-- Go: `Context` — state for one partner-protocol interaction. -/
structure Context where
  CID : ID
  SID : ID
  TOP : String
  TAG : String
  GEN : String
  MOD : String
  LVL : Int
  WTF : Bool
  DIR : String
  ENV : List (String × String)
deriving Repr, DecidableEq

/-- Go: `Tag3` — canonical tag, collapsing to `GEN` when `MOD` is empty. -/
def Tag3 (c : Context) : String :=
  if c.MOD ≠ "" then c.MOD ++ "~" ++ c.GEN else c.GEN

/-- Go: `Tag2` — always `MOD~GEN`. -/
def Tag2 (c : Context) : String :=
  c.MOD ++ "~" ++ c.GEN

/-- Go: `capitalize` — upper-cases the first rune. -/
def capitalize (s : String) : String :=
  match s.data with
  | [] => ""
  | ch :: rest => String.mk (ch.toUpper :: rest)

/-- Splits a character list at the first `'~'`: the characters before it,
and (when a `'~'` is present) the characters after it. -/
def breakTilde : List Char → List Char × Option (List Char)
  | [] => ([], none)
  | ch :: cs =>
    if ch = '~' then ([], some cs)
    else
      let r := breakTilde cs
      (ch :: r.1, r.2)

/-- Go: `strings.Contains(s, "~")`. -/
def containsTilde (s : String) : Bool :=
  (breakTilde s.data).2.isSome

/-- Go: `strings.Split(s, "~")[0]` (equally `strings.SplitN(s, "~", 2)[0]`). -/
def splitHead (s : String) : String :=
  String.mk (breakTilde s.data).1

/-- Go: `strings.SplitN(s, "~", 2)[1]` — the rest after the first separator,
later separators included; `""` when no separator is present. -/
def splitRest (s : String) : String :=
  match (breakTilde s.data).2 with
  | some r => String.mk r
  | none => ""

/-- Go: `strings.HasSuffix(s, "~")`. -/
def endsWithTilde (s : String) : Bool :=
  s.data.getLast? = some '~'

/-- Go: `formatSig` — converts `"architect~claude"` to `"Architect Claude"`. -/
def formatSig (tag : String) : String :=
  if tag = "" ∨ tag = "~" then "Main User"
  else if endsWithTilde tag then "Main User"
  else if containsTilde tag then
    let mod := splitHead tag
    let gen := splitRest tag
    if gen = "" then "Main User"
    else if mod = "" then capitalize gen
    else capitalize mod ++ " " ++ capitalize gen
  else capitalize tag

/-- Go: `SigTag`. -/
def SigTag (c : Context) : String :=
  formatSig (Tag3 c)

/-- Go: `SigTop`. -/
def SigTop (c : Context) : String :=
  if c.TOP = "" then "Main User" else formatSig c.TOP

/-- Go: `BlockingError` — a partner-protocol violation with its exit code. -/
structure BlockingError where
  Code : Int
  Message : String
deriving Repr, DecidableEq

/-- Go: `ValidateCall` — the four blocking checks, first match wins.
`none` means the call is allowed. -/
def ValidateCall (c : Context) : Option BlockingError :=
  if c.LVL ≥ 3 then
    some ⟨3, "recursive call depth exceeded (" ++ toString c.LVL ++ ")"⟩
  else if c.TAG ≠ "" ∧ c.TAG = c.TOP then
    some ⟨1, "you (" ++ SigTag c ++ ") cannot call yourself"⟩
  else if c.TOP ≠ "" ∧ containsTilde c.TOP = true ∧ splitHead c.TOP = "engineer" then
    some ⟨4, "you (" ++ SigTop c ++ ") cannot call anyone; ask your caller instead"⟩
  else if c.TOP ≠ "" ∧ containsTilde c.TOP = false ∧ c.MOD = "engineer" then
    some ⟨5, "you (" ++ SigTop c ++ ") cannot call " ++ SigTag c ++ "; ask your team instead"⟩
  else
    none

/-- The decision table exactly as claim C1 words it: rule (4) fires whenever
`CallerTag` has no role component (no `~` separator) — with no requirement
that `CallerTag` be non-empty — and `Persona` is the terminal role.
Result is the denial exit code, `none` when allowed. -/
def validateSpecC1 (c : Context) : Option Int :=
  if c.LVL ≥ 3 then some 3
  else if c.TAG ≠ "" ∧ c.TAG = c.TOP then some 1
  else if containsTilde c.TOP = true ∧ splitHead c.TOP = "engineer" then some 4
  else if containsTilde c.TOP = false ∧ c.MOD = "engineer" then some 5
  else none

/-- Claim C1's decision table amended as the counterexample forces: rule (4)
additionally requires `CallerTag` to be non-empty. -/
def validateSpecC1Amended (c : Context) : Option Int :=
  if c.LVL ≥ 3 then some 3
  else if c.TAG ≠ "" ∧ c.TAG = c.TOP then some 1
  else if containsTilde c.TOP = true ∧ splitHead c.TOP = "engineer" then some 4
  else if c.TOP ≠ "" ∧ containsTilde c.TOP = false ∧ c.MOD = "engineer" then some 5
  else none

/-- A top-level call context: empty caller tag, engineer persona, depth 0. -/
def cexC1 : Context :=
  { CID := "11111111-1111-1111-1111-111111111111"
  , SID := "11111111-1111-1111-1111-111111111111"
  , TOP := ""
  , TAG := "engineer~claude"
  , GEN := "claude"
  , MOD := "engineer"
  , LVL := 0
  , WTF := false
  , DIR := ""
  , ENV := [] }

/-! ## JSON values, lines and the filesystem model -/

/-- A JSON value, the model of what `encoding/json` decodes into a Go
`interface\x7b\x7d`. Numbers are restricted to integers; no modelled code
path inspects a fractional value. -/
inductive JVal where
  | null
  | bool (b : Bool)
  | num (n : Int)
  | str (s : String)
  | arr (elems : List JVal)
  | obj (fields : List (String × JVal))

/-- A decoded JSON object, the model of Go `map[string]interface\x7b\x7d`. -/
abbrev JObj := List (String × JVal)

/-- Map lookup on a decoded object (first match). -/
def jLookup (fields : JObj) (k : String) : Option JVal :=
  match fields with
  | [] => none
  | (k2, v) :: rest => if k2 = k then some v else jLookup rest k

/-- Go: `data[k].(string)` — `some s` iff the key is present with a string
value. -/
def jStr (o : JObj) (k : String) : Option String :=
  match jLookup o k with
  | some (.str s) => some s
  | _ => none

/-- Go: `b, _ := data[k].(bool)` — `false` when absent or not a bool. -/
def jBool (o : JObj) (k : String) : Bool :=
  match jLookup o k with
  | some (.bool b) => b
  | _ => false

/-- Go: `_, ok := data[k]` — key presence regardless of value. -/
def jHas (o : JObj) (k : String) : Bool :=
  (jLookup o k).isSome

/-- Go: `data[k].(map[string]interface\x7b\x7d)`. -/
def jObjField (o : JObj) (k : String) : Option JObj :=
  match jLookup o k with
  | some (.obj f) => some f
  | _ => none

/-- Go: `data[k].([]interface\x7b\x7d)`. -/
def jArrField (o : JObj) (k : String) : Option (List JVal) :=
  match jLookup o k with
  | some (.arr xs) => some xs
  | _ => none

mutual

/-- `json.Marshal` of a value (strings assumed to need no escaping). -/
def marshalJVal : JVal → String
  | .null => "null"
  | .bool true => "true"
  | .bool false => "false"
  | .num n => toString n
  | .str s => "\"" ++ s ++ "\""
  | .arr xs => "[" ++ marshalJList xs ++ "]"
  | .obj fs => "\x7b" ++ marshalJFields fs ++ "\x7d"

/-- `json.Marshal` of an array body. -/
def marshalJList : List JVal → String
  | [] => ""
  | [x] => marshalJVal x
  | x :: y :: xs => marshalJVal x ++ "," ++ marshalJList (y :: xs)

/-- `json.Marshal` of an object body. -/
def marshalJFields : List (String × JVal) → String
  | [] => ""
  | [(k, v)] => "\"" ++ k ++ "\":" ++ marshalJVal v
  | (k, v) :: f :: fs =>
      "\"" ++ k ++ "\":" ++ marshalJVal v ++ "," ++ marshalJFields (f :: fs)

end

/-- One line of a stream or of a line-delimited file: its raw text and the
result of `json.Unmarshal([]byte(raw), &map)` (`none` when the text does not
decode as a JSON object). -/
structure RLine where
  raw : String
  obj : Option JObj

/-- Association-list overwrite (model of Go map assignment). -/
def aset {α : Type} (k : String) (v : α) : List (String × α) → List (String × α)
  | [] => [(k, v)]
  | (k2, v2) :: rest => if k2 = k then (k, v) :: rest else (k2, v2) :: aset k v rest

/-- Association-list lookup (model of Go map read). -/
def alookup {α : Type} (k : String) : List (String × α) → Option α
  | [] => none
  | (k2, v) :: rest => if k2 = k then some v else alookup k rest

/-- The filesystem model: the set of existing directories and the existing
files with their contents (as the list of lines a `bufio.Scanner` yields).
An existing empty file is `(path, [])`. -/
structure World where
  dirs : List String
  files : List (String × List RLine)

/-- Go: `os.Stat` succeeds for the path (file view). -/
def fileExists (w : World) (p : String) : Bool :=
  (alookup p w.files).isSome

/-- Go: `hasContent` — the file exists and has nonzero size. -/
def hasContent (w : World) (p : String) : Bool :=
  match alookup p w.files with
  | none => false
  | some lines => !lines.isEmpty

/-- Go: `os.MkdirAll` (always succeeds in the model). -/
def mkdirAll (w : World) (d : String) : World :=
  if d ∈ w.dirs then w else { w with dirs := d :: w.dirs }

/-- Go: `os.WriteFile` — fails (returns `false`) when the containing
directory does not exist. `parent` is the directory the caller writes into. -/
def writeFileIn (w : World) (parent p : String) (content : List RLine) :
    World × Bool :=
  if parent ∈ w.dirs then ({ w with files := aset p content w.files }, true)
  else (w, false)

/-- Append one line to an open file handle (the handle was produced by a
successful `os.OpenFile`, so the file is present; appending is total). -/
def appendLine (w : World) (p : String) (l : RLine) : World :=
  match alookup p w.files with
  | none => { w with files := aset p [l] w.files }
  | some lines => { w with files := aset p (lines ++ [l]) w.files }

/-- Go: `os.OpenFile(p, O_CREATE|O_APPEND|O_WRONLY, 0644)` — fails when the
containing directory does not exist, otherwise ensures the file exists. -/
def openAppend (w : World) (parent p : String) : World × Bool :=
  if parent ∈ w.dirs then
    match alookup p w.files with
    | none => ({ w with files := aset p [] w.files }, true)
    | some _ => (w, true)
  else (w, false)

/-! ## Path helpers

Each Go path helper calls `os.UserHomeDir`; the model threads the home
directory explicitly and `filepath.Join` of clean components is plain
`"/"`-joining. -/

/-- Go: `filepath.Join` on clean components. -/
def joinPath (a b : String) : String := a ++ "/" ++ b

/-- Go constant `contextFileName`. -/
def contextFileName : String := "context.json"

/-- Go: `Dir1` — `~/.aimux/conversations/$CID/$GEN`. -/
def Dir1 (home : String) (c : Context) : String :=
  joinPath (joinPath (joinPath (joinPath home ".aimux") "conversations") c.CID) c.GEN

/-- Go: `Dir2` — `Dir1` or `Dir1/$MOD` when `MOD` is set. -/
def Dir2 (home : String) (c : Context) : String :=
  if c.MOD ≠ "" then joinPath (Dir1 home c) c.MOD else Dir1 home c

/-- Go: `Log1` — `Dir1/log.jsonl`. -/
def Log1 (home : String) (c : Context) : String :=
  joinPath (Dir1 home c) "log.jsonl"

/-- Go: `Log2` — `log.jsonl` under `Dir1` extended by `$MOD`, or by the
placeholder directory `-` when `MOD` is empty. -/
def Log2 (home : String) (c : Context) : String :=
  joinPath (joinPath (Dir1 home c) (if c.MOD = "" then "-" else c.MOD)) "log.jsonl"

/-- Go: `Log3` — `Dir2/log.jsonl`. -/
def Log3 (home : String) (c : Context) : String :=
  joinPath (Dir2 home c) "log.jsonl"

/-! ## Log inspection helpers (flow.go) -/

/-- Hex digit test from Go `isValidUUID`'s character loop. -/
def isHexChar (ch : Char) : Bool :=
  decide (('0' ≤ ch ∧ ch ≤ '9') ∨ ('a' ≤ ch ∧ ch ≤ 'f') ∨ ('A' ≤ ch ∧ ch ≤ 'F'))

/-- Positional character check of Go `isValidUUID`: dashes at offsets
8, 13, 18, 23, hex digits elsewhere. -/
def uuidCharsOK : Nat → List Char → Bool
  | _, [] => true
  | i, ch :: cs =>
    (if i = 8 ∨ i = 13 ∨ i = 18 ∨ i = 23 then decide (ch = '-') else isHexChar ch)
      && uuidCharsOK (i + 1) cs

/-- Go: `isValidUUID`. Go measures byte length and byte offsets; the model
uses character positions, which agrees on the accept set because every
accepted string is pure ASCII and any multi-byte character is rejected by
both versions. -/
def isValidUUID (s : String) : Bool :=
  decide (s.data.length = 36) && uuidCharsOK 0 s.data

/-- Go: `hasEstablishedSession` — the log file has a line whose decoded
object has a string `from` other than `"user"`, or `type == "assistant"`. -/
def hasEstablishedSession (w : World) (p : String) : Bool :=
  match alookup p w.files with
  | none => false
  | some lines =>
    lines.any fun l =>
      match l.obj with
      | none => false
      | some o =>
        (match jStr o "from" with
         | some f => decide (f ≠ "user")
         | none => false)
        || (match jStr o "type" with
            | some t => decide (t = "assistant")
            | none => false)

/-- Go: `lastSessionID` — reads the last line of a JSONL file and extracts
`session_id` or `sessionId`, validating the UUID format. -/
def lastSessionID (w : World) (p : String) : Except String ID :=
  match alookup p w.files with
  | none => .error ("open " ++ p ++ ": no such file")
  | some lines =>
    match lines.getLast? with
    | none => .error "log file is empty"
    | some l =>
      if l.raw = "" then .error "log file is empty"
      else
        match l.obj with
        | none => .error "unmarshal last log line"
        | some o =>
          match jStr o "session_id" with
          | some s =>
            if isValidUUID s then .ok s
            else .error ("invalid session ID format in log file: " ++ s)
          | none =>
            match jStr o "sessionId" with
            | some s =>
              if isValidUUID s then .ok s
              else .error ("invalid session ID format in log file: " ++ s)
            | none => .error "no session ID found in last log line"

/-! ## The Context Snapshot (context.json) -/

/-- `json.Marshal` of the `env` map. -/
def envToJObj (env : List (String × String)) : JVal :=
  .obj (env.map fun kv => (kv.1, .str kv.2))

/-- `json.Marshal` of a `Context` (field order and `omitempty` as in the Go
struct tags). -/
def ctxToJObj (c : Context) : JObj :=
  [("cid", .str c.CID), ("sid", .str c.SID), ("top", .str c.TOP),
   ("tag", .str c.TAG), ("gen", .str c.GEN), ("mod", .str c.MOD),
   ("lvl", .num c.LVL), ("wtf", .bool c.WTF)]
  ++ (if c.DIR ≠ "" then [("dir", .str c.DIR)] else [])
  ++ (if c.ENV ≠ [] then [("env", envToJObj c.ENV)] else [])

/-- One decoded field of `json.Unmarshal` into a string-typed struct field:
absent gives the zero value, a non-string value is a decode error. -/
def fieldStr (o : JObj) (k : String) : Option String :=
  match jLookup o k with
  | none => some ""
  | some (.str s) => some s
  | some _ => none

/-- Decoded `int` field. -/
def fieldInt (o : JObj) (k : String) : Option Int :=
  match jLookup o k with
  | none => some 0
  | some (.num n) => some n
  | some _ => none

/-- Decoded `bool` field. -/
def fieldBool (o : JObj) (k : String) : Option Bool :=
  match jLookup o k with
  | none => some false
  | some (.bool b) => some b
  | some _ => none

/-- Decoded `map[string]string` field. -/
def fieldEnv (o : JObj) (k : String) : Option (List (String × String)) :=
  match jLookup o k with
  | none => some []
  | some (.obj fs) =>
    fs.foldr
      (fun kv acc =>
        match kv.2, acc with
        | .str v, some rest => some ((kv.1, v) :: rest)
        | _, _ => none)
      (some [])
  | some _ => none

/-- `json.Unmarshal` of a decoded object into a `Context`. -/
def ctxOfJObj (o : JObj) : Option Context := do
  let cid ← fieldStr o "cid"
  let sid ← fieldStr o "sid"
  let top ← fieldStr o "top"
  let tag ← fieldStr o "tag"
  let gen ← fieldStr o "gen"
  let mod ← fieldStr o "mod"
  let lvl ← fieldInt o "lvl"
  let wtf ← fieldBool o "wtf"
  let dir ← fieldStr o "dir"
  let env ← fieldEnv o "env"
  pure ⟨cid, sid, top, tag, gen, mod, lvl, wtf, dir, env⟩

/-- Go: the snapshot read at the top of `DetermineSessionID`:
`os.ReadFile(DIR/context.json)` followed by `json.Unmarshal` into a
`Context`; `none` when the file is missing or does not decode. -/
def readSnapshot (w : World) (p : String) : Option Context :=
  match alookup p w.files with
  | none => none
  | some [l] =>
    match l.obj with
    | some o => ctxOfJObj o
    | none => none
  | some _ => none

/-- Go: `saveContext` — `os.WriteFile(DIR/context.json, marshal(c)+"\n")`;
the write fails (second component `false`) when `DIR` does not exist. -/
def saveContext (w : World) (c : Context) : World × Bool :=
  writeFileIn w c.DIR (joinPath c.DIR contextFileName)
    [⟨marshalJVal (.obj (ctxToJObj c)), some (ctxToJObj c)⟩]

/-! ## DetermineSessionID (flow.go) -/

/-- The log-scanning tail of Go `DetermineSessionID` (everything after the
snapshot check): `hasContent(log2)`, then `hasContent(log1)` when the
persona is empty, else `CID`. Returns the id and the context (whose `SID`
the Go code assigns in the two extraction branches). -/
def determineSessionIDLogs (home : String) (w : World) (c : Context) :
    Except String (ID × Context) :=
  let log2 := Log2 home c
  let log1 := Log1 home c
  if hasContent w log2 then
    match lastSessionID w log2 with
    | .error e => .error e
    | .ok sid => .ok (sid, { c with SID := sid })
  else if c.MOD = "" ∧ hasContent w log1 then
    match lastSessionID w log1 with
    | .error e => .error e
    | .ok sid => .ok (sid, { c with SID := sid })
  else .ok (c.CID, c)

/-- Go: `DetermineSessionID` — snapshot first, then the log scan. -/
def DetermineSessionID (home : String) (w : World) (c : Context) :
    Except String (ID × Context) :=
  match readSnapshot w (joinPath c.DIR contextFileName) with
  | some saved =>
    if saved.SID ≠ "" then .ok (saved.SID, c)
    else determineSessionIDLogs home w c
  | none => determineSessionIDLogs home w c

/-- The resolver as claim C2 words it: step (b) requires the persona log to
have at least one record whose origin is not `"user"` (and step (c) the
same for the undifferentiated log), rather than mere non-emptiness. -/
def determineSessionIDSpecC2 (home : String) (w : World) (c : Context) :
    Except String ID :=
  match readSnapshot w (joinPath c.DIR contextFileName) with
  | some saved =>
    if saved.SID ≠ "" then .ok saved.SID
    else determineSessionIDSpecC2Logs home w c
  | none => determineSessionIDSpecC2Logs home w c
where
  determineSessionIDSpecC2Logs (home : String) (w : World) (c : Context) :
      Except String ID :=
    if hasEstablishedSession w (Log2 home c) then lastSessionID w (Log2 home c)
    else if c.MOD = "" ∧ hasEstablishedSession w (Log1 home c) then
      lastSessionID w (Log1 home c)
    else .ok c.CID

/-- Claim C2 amended as the counterexample forces: steps (b) and (c) fire
when the respective log exists and is non-empty (regardless of the origins
of its records), extraction still taking the most recent record. -/
def determineSessionIDSpecC2Amended (home : String) (w : World) (c : Context) :
    Except String ID :=
  match readSnapshot w (joinPath c.DIR contextFileName) with
  | some saved =>
    if saved.SID ≠ "" then .ok saved.SID
    else amendedLogs home w c
  | none => amendedLogs home w c
where
  amendedLogs (home : String) (w : World) (c : Context) : Except String ID :=
    if hasContent w (Log2 home c) then lastSessionID w (Log2 home c)
    else if c.MOD = "" ∧ hasContent w (Log1 home c) then
      lastSessionID w (Log1 home c)
    else .ok c.CID

/-- Concrete context for the C2 counterexample: persona `engineer`, no
snapshot on disk. -/
def ctxC2 : Context :=
  { CID := "11111111-1111-1111-1111-111111111111"
  , SID := "11111111-1111-1111-1111-111111111111"
  , TOP := ""
  , TAG := "engineer~claude"
  , GEN := "claude"
  , MOD := "engineer"
  , LVL := 0
  , WTF := false
  , DIR := "/h/.aimux/conversations/11111111-1111-1111-1111-111111111111/claude/engineer"
  , ENV := [] }

/-- Concrete world for the C2 counterexample: the persona log exists and
contains exactly one record, authored by the user. -/
def worldC2 : World :=
  { dirs := ["/h/.aimux/conversations/11111111-1111-1111-1111-111111111111/claude/engineer"]
  , files :=
      [("/h/.aimux/conversations/11111111-1111-1111-1111-111111111111/claude/engineer/log.jsonl",
        [⟨"\x7b\"session_id\":\"22222222-2222-2222-2222-222222222222\",\"from\":\"user\",\"body\":\"hi\"\x7d",
          some [("session_id", .str "22222222-2222-2222-2222-222222222222"),
                ("from", .str "user"),
                ("body", .str "hi")]⟩])] }

/-! ## Configuration (config.go) -/

/-- Go: `PersonaConfig`. -/
structure PersonaConfig where
  Name : String
  Model : String
  Model2 : String
  Hints : List String
  Delegatees : List String

/-- Go: `GenusArgs`. `Prompt` has Go type `any`; it is a `JVal` here
(`.null` when absent). -/
structure GenusArgs where
  Model : List String
  Resume : List String
  Branch : List String
  New : List String
  Prompt : JVal
  Output : List String
  Safety : List String

/-- Go: `GenusConfig`. `Personas` is `map[string]PersonaVars`. -/
structure GenusConfig where
  Name : String
  Exe : List String
  Cmd : List String
  Args : GenusArgs
  Personas : List (String × List (String × String))

/-- Go: `Config`. -/
structure Config where
  Personas : List (String × PersonaConfig)
  Genera : List (String × GenusConfig)

/-- Go: `strings.HasPrefix(rest, pat)` on character lists: `some suffix`
when `pat` is a prefix. -/
def stripPrefixChars : List Char → List Char → Option (List Char)
  | [], rest => some rest
  | _ :: _, [] => none
  | p :: ps, ch :: cs => if ch = p then stripPrefixChars ps cs else none

/-- Go: `strings.ReplaceAll` restricted to a non-empty pattern
`p0 :: ps`: left-to-right, non-overlapping replacement. The recursion is
made structural with a fuel counter; every step consumes at least one
character, so fuel equal to the input length (as supplied by `replaceAll`)
never runs out and the zero-fuel arm is unreachable. -/
def replaceAllAux (p0 : Char) (ps rep : List Char) : Nat → List Char → List Char
  | 0, l => l
  | _ + 1, [] => []
  | fuel + 1, ch :: cs =>
    match (if ch = p0 then stripPrefixChars ps cs else none) with
    | some rest => rep ++ replaceAllAux p0 ps rep fuel rest
    | none => ch :: replaceAllAux p0 ps rep fuel cs

/-- Go: `strings.ReplaceAll(s, pat, rep)`. The modelled call sites always
use a non-empty pattern; the empty-pattern case (where Go interleaves the
replacement between characters) falls back to the identity and is never
reached. -/
def replaceAll (s pat rep : String) : String :=
  match pat.data with
  | [] => s
  | p0 :: ps => String.mk (replaceAllAux p0 ps rep.data s.data.length s.data)

/-- Go: `RenderFlags` — substitutes each `\x7b\x7bkey\x7d\x7d` placeholder.
Go iterates the variable map in unspecified order; the model substitutes in
list order (the modelled templates never make the order observable). -/
def RenderFlags (template : List String) (vars : List (String × String)) :
    List String :=
  template.map fun t =>
    vars.foldl
      (fun acc kv => replaceAll acc ("\x7b\x7b" ++ kv.1 ++ "\x7d\x7d") kv.2)
      t

/-! ## buildSessionFlags (flow.go)

The Go function reads the filesystem but performs no write; the model
accordingly takes the `World` and does not return one. `NewID` draws from
the explicit id supply `ids`. Returns
`(flags, isNew, updated context, remaining ids)`. -/

/-- Go: `buildSessionFlags`. -/
def buildSessionFlags (home : String) (w : World) (ids : List String)
    (c : Context) (genus : GenusConfig) (personaVars : List (String × String)) :
    List String × Bool × Context × List String :=
  let log2 := Log2 home c
  let log1 := Log1 home c
  let sidVars := personaVars.foldl (fun m kv => aset kv.1 kv.2 m) [("sid", c.SID)]
  if hasEstablishedSession w log2 then
    (RenderFlags genus.Args.Resume sidVars, false, c, ids)
  else if hasEstablishedSession w log1 then
    if fileExists w log2 ∧ genus.Args.Branch.length > 0 then
      (RenderFlags genus.Args.Branch sidVars, false, c, ids)
    else
      (RenderFlags genus.Args.Resume sidVars, false, c, ids)
  else
    if fileExists w log2 ∧ c.CID ≠ c.SID then
      let newSID := ids.headD ""
      let sidVars2 := aset "sid" newSID sidVars
      (RenderFlags genus.Args.New sidVars2, true, { c with SID := newSID }, ids.tail)
    else
      (RenderFlags genus.Args.New sidVars, true, c, ids)

/-- Concrete context for the C8 witness: already branched
(`CID ≠ SID`), persona `engineer`. -/
def ctxC8 : Context :=
  { CID := "11111111-1111-1111-1111-111111111111"
  , SID := "99999999-9999-9999-9999-999999999999"
  , TOP := ""
  , TAG := "engineer~claude"
  , GEN := "claude"
  , MOD := "engineer"
  , LVL := 0
  , WTF := false
  , DIR := "/h/.aimux/conversations/11111111-1111-1111-1111-111111111111/claude/engineer"
  , ENV := [] }

/-- Concrete world for the C8 witness: the persona log exists but is
empty, the undifferentiated log does not exist. -/
def worldC8 : World :=
  { dirs := ["/h/.aimux/conversations/11111111-1111-1111-1111-111111111111/claude/engineer"]
  , files :=
      [("/h/.aimux/conversations/11111111-1111-1111-1111-111111111111/claude/engineer/log.jsonl",
        [])] }

/-- Genus used by the C8 witness. -/
def genusC8 : GenusConfig :=
  { Name := "test"
  , Exe := ["test"]
  , Cmd := []
  , Args :=
      { Model := []
      , Resume := ["--resume", "\x7b\x7bsid\x7d\x7d"]
      , Branch := ["--resume", "\x7b\x7bsid\x7d\x7d", "--fork-session"]
      , New := ["--session-id", "\x7b\x7bsid\x7d\x7d"]
      , Prompt := .null
      , Output := []
      , Safety := [] }
  , Personas := [] }

/-! ## StreamAndLog (flow.go)

The interpreter's input is the list of lines the `bufio.Scanner` yields,
plus `endErr`: the value of `scanner.Err()` at end-of-stream (an underlying
read failure, or `bufio.ErrTooLong` for a line over `MaxLineLength`).
`scanner.Err()` is only consulted when the loop drains the whole list; when
the loop breaks early at the output cap the error was never encountered and
is not surfaced — exactly as in Go. `bufWriter` writes are collected in
`sink` as one event per `WriteString` call; flushing has no observable
effect in the model. `MkdirAll` and the in-loop write-error paths cannot
fail in the model, so the only modelled error exit is the scanner error. -/

/-- Go constant `MaxLineLength` (1MB). -/
def MaxLineLength : Nat := 1024 * 1024

/-- Go constant `MaxOutputSize` (10MB). -/
def MaxOutputSize : Nat := 10 * 1024 * 1024

/-- The truncation notice appended at the output cap. -/
def truncationNotice : String := "\n[WARNING: Output truncated at 10MB limit]\n"

/-- Go: `detectFormat` — first byte of the first non-empty line:
123 = opening brace, 91 = `[`, 60 = `<`. Go inspects the first byte; for a
multi-byte first rune both versions answer `"text"`. -/
def detectFormat (firstLine : String) : String :=
  match firstLine.data with
  | [] => "empty"
  | ch :: _ =>
    if ch.toNat = 123 ∨ ch.toNat = 91 then "json"
    else if ch.toNat = 60 then "xml"
    else "text"

/-- A filesystem side effect of the interpreter, for the effect trace. -/
inductive Eff where
  | mkdirEff (d : String)
  | saveCtxEff (path : String) (ok : Bool)
  | openLogEff (p : String)
deriving Repr, DecidableEq

/-- The interpreter's per-call state (Go locals of `StreamAndLog` plus the
world, the mutable context, the sink and the effect trace). -/
structure DrainState where
  w : World
  c : Context
  sink : List String
  total : Nat
  lineNumber : Nat
  format : String
  hasError : Bool
  pending : ID
  sidSaved : Bool
  sidLogged : Bool
  logPath : Option String
  effects : List Eff
  broke : Bool

/-- Attempt `saveContext` and record the attempt in the effect trace
(Go logs a warning on failure and continues). -/
def saveCtxAttempt (s : DrainState) : DrainState :=
  let r := saveContext s.w s.c
  { s with
    w := r.1
    effects := s.effects ++ [.saveCtxEff (joinPath s.c.DIR contextFileName) r.2] }

/-- Append one line to the open log file (`logFile.WriteString`); no-op when
the log was never opened, which is unreachable in the branches that call
it (they run only after format detection opened the log). -/
def logWrite (s : DrainState) (l : RLine) : DrainState :=
  match s.logPath with
  | some p => { s with w := appendLine s.w p l }
  | none => s

/-- Go: the error-message extraction for explicit error records —
`.error.message`, then `.result`, then `.message`, then a fixed fallback. -/
def extractErrorMsg (data : JObj) : String :=
  let e1 :=
    match jObjField data "error" with
    | some eobj => (jStr eobj "message").getD ""
    | none => ""
  let e2 := if e1 = "" then (jStr data "result").getD "" else e1
  let e3 := if e2 = "" then (jStr data "message").getD "" else e2
  if e3 = "" then "Unknown API error" else e3

/-- Go: the `.message.content[].text` extraction loop. -/
def contentText (arr : Option (List JVal)) : String :=
  match arr with
  | none => ""
  | some items =>
    items.foldl
      (fun acc item =>
        match item with
        | .obj im =>
          match jStr im "text" with
          | some t => acc ++ t
          | none => acc
        | _ => acc)
      ""

/-- The session-id collection inside the `type == "assistant"` branch:
`session_id` first (even when present with a non-string value), else
`sessionId`; a non-empty string is kept only when no candidate is pending
yet. -/
def collectSID (s : DrainState) (data : JObj) : DrainState :=
  let sidv :=
    match jLookup data "session_id" with
    | some v => some v
    | none => jLookup data "sessionId"
  match sidv with
  | some (.str str) =>
    if str ≠ "" then
      if s.pending = "" ∧ s.sidLogged = false then
        { s with pending := str, sidLogged := true }
      else if s.pending = "" then { s with pending := str }
      else s
    else s
  | _ => s

/-- The per-line pending-id flush: apply and persist a changed candidate
unless an error was seen. -/
def jsonFlushSID (s : DrainState) : DrainState :=
  if s.pending ≠ "" ∧ s.hasError = false ∧ s.pending ≠ s.c.SID then
    saveCtxAttempt
      { s with c := { s.c with SID := s.pending }, sidSaved := true }
  else s

/-- Emit extracted text to the sink (with its byte count), when non-empty. -/
def emitText (s : DrainState) (text : String) : DrainState :=
  if text ≠ "" then
    { s with total := s.total + text.utf8ByteSize, sink := s.sink ++ [text] }
  else s

/-- The `case "json"` arm of the interpreter's switch. -/
def jsonLine (s : DrainState) (l : RLine) : DrainState :=
  match l.obj with
  | none => s
  | some data =>
    let msgType? := jStr data "type"
    let msgType := msgType?.getD ""
    let hasType := msgType?.isSome
    let isError := jBool data "is_error"
    let s :=
      if isError then { s with hasError := true, pending := "" } else s
    if hasType ∧ (msgType = "error" ∨ (msgType = "result" ∧ isError)) then
      if msgType = "error" then
        { s with sink := s.sink ++ [extractErrorMsg data ++ "\n"] }
      else s
    else
      let s :=
        if jHas data "session_id" ∨ jHas data "sessionId" then logWrite s l
        else s
      let collectAndExtract :=
        if msgType? = some "assistant" then
          let text :=
            match jObjField data "message" with
            | some msg => contentText (jArrField msg "content")
            | none => ""
          (collectSID s data, text)
        else
          match jObjField data "message" with
          | some msg => (s, contentText (jArrField msg "content"))
          | none =>
            match jObjField data "msg" with
            | some m => (s, (jStr m "message").getD "")
            | none => (s, "")
      emitText (jsonFlushSID collectAndExtract.1) collectAndExtract.2

/-- The `case "text", "empty"` arm: emit the line and log it as an
assistant message (timestamp abstracted to the string "0"). -/
def textLine (s : DrainState) (line : String) : DrainState :=
  let s :=
    { s with
      total := s.total + line.utf8ByteSize
      sink := s.sink ++ [line ++ "\n"] }
  if line ≠ "" then
    let msgObj : JObj :=
      [("session_id", .str s.c.SID), ("at", .str "0"),
       ("from", .str "assistant"), ("body", .str line)]
    logWrite s ⟨marshalJVal (.obj msgObj), some msgObj⟩
  else s

/-- The `default` arm (undetected format on empty lines, or `xml`). -/
def defaultLine (s : DrainState) (line : String) : DrainState :=
  { s with
    total := s.total + line.utf8ByteSize
    sink := s.sink ++ [line ++ "\n"] }

/-- One iteration of the scan loop: line counter, format detection with its
deferred side effects, the output-size ceiling, then the format switch. -/
def stepLine (home : String) (s : DrainState) (l : RLine) : DrainState :=
  let s := { s with lineNumber := s.lineNumber + 1 }
  let line := l.raw
  let s :=
    if s.format = "" ∧ line ≠ "" then
      let s := { s with format := detectFormat line }
      let s :=
        { s with
          w := mkdirAll s.w s.c.DIR
          effects := s.effects ++ [.mkdirEff s.c.DIR] }
      let s := saveCtxAttempt s
      let log3 := Log3 home s.c
      let r := openAppend s.w s.c.DIR log3
      { s with w := r.1, logPath := some log3, effects := s.effects ++ [.openLogEff log3] }
    else s
  if s.total ≥ MaxOutputSize then
    { s with sink := s.sink ++ [truncationNotice], broke := true }
  else if s.format = "json" then jsonLine s l
  else if s.format = "text" ∨ s.format = "empty" then textLine s line
  else defaultLine s line

/-- The scan loop; a `broke` state stops consuming lines (Go's `break`). -/
def drainLoop (home : String) : DrainState → List RLine → DrainState
  | s, [] => s
  | s, l :: ls =>
    let s2 := stepLine home s l
    if s2.broke then s2 else drainLoop home s2 ls

/-- The end-of-stream finalization: apply a pending id and persist the
snapshot unless an error was seen or the snapshot was already saved. -/
def finalizeDrain (s : DrainState) : DrainState :=
  if s.hasError = false ∧ s.sidSaved = false then
    let s :=
      if s.pending ≠ "" ∧ s.pending ≠ s.c.SID then
        { s with c := { s.c with SID := s.pending } }
      else s
    saveCtxAttempt s
  else s

/-- The interpreter's input: scanner lines plus the scanner's end error. -/
structure StreamInput where
  lines : List RLine
  endErr : Option String

/-- The initial interpreter state. -/
def initDrain (w : World) (c : Context) : DrainState :=
  { w := w, c := c, sink := [], total := 0, lineNumber := 0, format := ""
  , hasError := false, pending := "", sidSaved := false, sidLogged := false
  , logPath := none, effects := [], broke := false }

/-- Go: `StreamAndLog`. -/
def StreamAndLog (home : String) (w : World) (c : Context)
    (inp : StreamInput) : Except String DrainState :=
  let s := drainLoop home (initDrain w c) inp.lines
  if s.broke = false ∧ inp.endErr.isSome then
    .error ("read stream: " ++ inp.endErr.getD "")
  else
    .ok (finalizeDrain s)

/-- Total bytes written to the sink. -/
def sinkBytes (s : DrainState) : Nat :=
  (s.sink.map String.utf8ByteSize).sum

/-- Number of truncation notices written to the sink. -/
def noticeCount (s : DrainState) : Nat :=
  s.sink.countP (· == truncationNotice)

/-- The fields of a context other than `SID` and `ENV`; the frame the
lifecycle and interpreter operations must preserve. -/
def ctxFrame (a b : Context) : Prop :=
  a.CID = b.CID ∧ a.TOP = b.TOP ∧ a.TAG = b.TAG ∧ a.GEN = b.GEN ∧
  a.MOD = b.MOD ∧ a.LVL = b.LVL ∧ a.WTF = b.WTF ∧ a.DIR = b.DIR

/-! ## Concrete streams for the interpreter claims -/

/-- An empty filesystem. -/
def worldEmpty : World := { dirs := [], files := [] }

/-- The C3 scenario context: undifferentiated persona. -/
def ctxC3 : Context :=
  { CID := "44444444-4444-4444-4444-444444444444"
  , SID := "44444444-4444-4444-4444-444444444444"
  , TOP := ""
  , TAG := "claude"
  , GEN := "claude"
  , MOD := ""
  , LVL := 0
  , WTF := false
  , DIR := "/h/.aimux/conversations/44444444-4444-4444-4444-444444444444/claude"
  , ENV := [] }

/-- The C3 scenario line: a record explicitly typed as a terminal error. -/
def errLineC3 : RLine :=
  ⟨"\x7b\"type\":\"error\",\"message\":\"boom\"\x7d",
   some [("type", .str "error"), ("message", .str "boom")]⟩

/-- Decoded object of an error record that also carries `is_error: true`
(for the C3 witness). -/
def dataC3W : JObj :=
  [("type", .str "error"), ("is_error", .bool true), ("message", .str "boom")]

/-- Line carrying `dataC3W`. -/
def errLineC3W : RLine :=
  ⟨"\x7b\"type\":\"error\",\"is_error\":true,\"message\":\"boom\"\x7d", some dataC3W⟩

/-- The C4 failing context. -/
def ctxC4 : Context :=
  { CID := "55555555-5555-5555-5555-555555555555"
  , SID := "55555555-5555-5555-5555-555555555555"
  , TOP := ""
  , TAG := "claude"
  , GEN := "claude"
  , MOD := ""
  , LVL := 0
  , WTF := false
  , DIR := "/h/.aimux/conversations/55555555-5555-5555-5555-555555555555/claude"
  , ENV := [] }

/-- First assistant record of the C4 failing input (session id `aaaa…`). -/
def asstLineA : RLine :=
  ⟨"\x7b\"type\":\"assistant\",\"session_id\":\"aaaaaaaa-aaaa-aaaa-aaaa-aaaaaaaaaaaa\",\"message\":\x7b\"content\":[\x7b\"text\":\"hi\"\x7d]\x7d\x7d",
   some [("type", .str "assistant"),
         ("session_id", .str "aaaaaaaa-aaaa-aaaa-aaaa-aaaaaaaaaaaa"),
         ("message", .obj [("content", .arr [.obj [("text", .str "hi")]])])]⟩

/-- Second assistant record of the C4 failing input, with a different
session id (`bbbb…`). -/
def asstLineB : RLine :=
  ⟨"\x7b\"type\":\"assistant\",\"session_id\":\"bbbbbbbb-bbbb-bbbb-bbbb-bbbbbbbbbbbb\",\"message\":\x7b\"content\":[\x7b\"text\":\"yo\"\x7d]\x7d\x7d",
   some [("type", .str "assistant"),
         ("session_id", .str "bbbbbbbb-bbbb-bbbb-bbbb-bbbbbbbbbbbb"),
         ("message", .obj [("content", .arr [.obj [("text", .str "yo")]])])]⟩

/-- A two-byte plain-text line, the unit of the C5 stream. -/
def abLine : RLine := ⟨"ab", none⟩

/-- The C5 context. -/
def ctxC5 : Context :=
  { CID := "77777777-7777-7777-7777-777777777777"
  , SID := "77777777-7777-7777-7777-777777777777"
  , TOP := ""
  , TAG := "bash"
  , GEN := "bash"
  , MOD := ""
  , LVL := 0
  , WTF := false
  , DIR := "/h/.aimux/conversations/77777777-7777-7777-7777-777777777777/bash"
  , ENV := [] }

/-- A mid-drain state sitting exactly at the output ceiling (for the C5
witness). -/
def sCapWit : DrainState :=
  { w := worldEmpty, c := ctxC5, sink := [], total := MaxOutputSize
  , lineNumber := 0, format := "text", hasError := false, pending := ""
  , sidSaved := false, sidLogged := false, logPath := none, effects := []
  , broke := false }

/-- Reference recurrence for the interpreter's text loop fed with 2-byte
lines from a running total `t`: how many lines are emitted, how many
truncation notices, and whether the loop broke. -/
def textOutcome : Nat → Nat → Nat × Nat × Bool
  | 0, _ => (0, 0, false)
  | n + 1, t =>
    if t ≥ MaxOutputSize then (0, 1, true)
    else
      let r := textOutcome n (t + 2)
      (r.1 + 1, r.2.1, r.2.2)

/-- The C6 context (same shape as the scenario contexts). -/
def ctxC6 : Context :=
  { CID := "66666666-6666-6666-6666-666666666666"
  , SID := "66666666-6666-6666-6666-666666666666"
  , TOP := ""
  , TAG := "claude"
  , GEN := "claude"
  , MOD := ""
  , LVL := 0
  , WTF := false
  , DIR := "/h/.aimux/conversations/66666666-6666-6666-6666-666666666666/claude"
  , ENV := [] }

/-- The C6 counterexample world: the conversation directory already exists
(left over from an earlier call), no files. -/
def worldC6 : World :=
  { dirs := ["/h/.aimux/conversations/66666666-6666-6666-6666-666666666666/claude"]
  , files := [] }

/-! ## The subprocess stream lifecycle (CommandStream / LazyCommandStream)

`Close` races an asynchronous `cmd.Wait` against a 5-second bound; the
model makes the race outcome an input (`exitsWithinBound`). `os.File.Close`
on an already-closed file returns the `os.ErrClosed` error, modelled by the
`pipeClosed` flag. `waitCount` and `killCount` count invocations of
`cmd.Wait` and `killProcessGroup` — the teardown side effects. -/

/-- The observable state of the external process and its stdout pipe. -/
structure ProcState where
  pipeClosed : Bool
  waitCount : Nat
  killCount : Nat
  cancelled : Bool
  exitsWithinBound : Bool
  waitErr : Option String
deriving Repr, DecidableEq

/-- Go: `CommandStream.Close`. Returns the new state and the error result.
The deferred `cancel` always runs. -/
def csClose (p : ProcState) : ProcState × Option String :=
  if p.pipeClosed then
    ({ p with
        killCount := p.killCount + 1
        waitCount := p.waitCount + 1
        cancelled := true },
     some "file already closed")
  else
    let p := { p with pipeClosed := true }
    if p.exitsWithinBound then
      ({ p with waitCount := p.waitCount + 1, cancelled := true }, p.waitErr)
    else
      ({ p with
          killCount := p.killCount + 1
          waitCount := p.waitCount + 2
          cancelled := true },
       some "command did not exit cleanly, killed after timeout")

/-- Go: `LazyCommandStream` — the `sync.Once` guard, whether the start ran
(`stream != nil`), and the underlying process state. -/
structure LazyState where
  onceUsed : Bool
  started : Bool
  proc : ProcState
deriving Repr, DecidableEq

/-- A first successful `Read`: the once-guarded start runs. -/
def lcsRead (ls : LazyState) : LazyState :=
  if ls.onceUsed then ls else { ls with onceUsed := true, started := true }

/-- Go: `LazyCommandStream.Close`. -/
def lcsClose (ls : LazyState) : LazyState × Option String :=
  let ls :=
    if ls.onceUsed then ls
    else { ls with onceUsed := true, proc := { ls.proc with cancelled := true } }
  if ls.started then
    let r := csClose ls.proc
    ({ ls with proc := r.1 }, r.2)
  else (ls, none)

/-- A process that was never started (for the C7 statements). -/
def procFresh : ProcState :=
  { pipeClosed := false, waitCount := 0, killCount := 0, cancelled := false
  , exitsWithinBound := true, waitErr := none }

/-! ## System prompt generation (Sys and helpers)

These are faithful string builders; none of the proved properties inspect
the produced text, only that its computation leaves the context alone.
Known benign deviations, each marked where it occurs: `sort.Strings` is
modelled by insertion sort (same sorted output), timestamps are abstract,
and `truncate` slices characters where Go slices bytes. -/

/-- Go: `NormalizeUUID` — lower-cases the string. -/
def NormalizeUUID (s : String) : String := s.toLower

/-- Splits a character list at the first `'='`. -/
def breakEq : List Char → List Char × Option (List Char)
  | [] => ([], none)
  | ch :: cs =>
    if ch = '=' then ([], some cs)
    else
      let r := breakEq cs
      (ch :: r.1, r.2)

/-- Go: `strings.Replace(s, "=", " is ", 1)`. -/
def replaceFirstEq (s : String) : String :=
  match breakEq s.data with
  | (pre, some post) => String.mk pre ++ " is " ++ String.mk post
  | (_, none) => s

/-- Go: `strings.HasSuffix(s, "=")`. -/
def endsWithEq (s : String) : Bool :=
  s.data.getLast? = some '='

/-- Go: `strings.HasPrefix(s, "AI")`. -/
def startsWithAI (s : String) : Bool :=
  match s.data with
  | 'A' :: 'I' :: _ => true
  | _ => false

/-- Insertion into a sorted list of strings. -/
def insertSorted (x : String) : List String → List String
  | [] => [x]
  | y :: ys => if x ≤ y then x :: y :: ys else y :: insertSorted x ys

/-- Go: `sort.Strings`, modelled by insertion sort (same sorted result). -/
def sortStrings (l : List String) : List String :=
  l.foldr insertSorted []

/-- Go: `Env` — the sorted `KEY=VALUE` display list. Go appends the
`AI`-prefixed extension entries in map order before sorting; the model
appends them in list order, which yields the same sorted output. -/
def Env (c : Context) : List String :=
  let vars := ["AICID=" ++ NormalizeUUID c.CID, "AISID=" ++ NormalizeUUID c.SID,
               "AITOP=" ++ c.TOP, "AITAG=" ++ Tag3 c, "AIGEN=" ++ c.GEN,
               "AIMOD=" ++ c.MOD, "AILVL=" ++ toString c.LVL]
  let vars := vars ++ (if c.WTF then ["AIWTF=x"] else [])
  let vars := vars ++ ((c.ENV.filter (fun kv => startsWithAI kv.1)).map
      (fun kv => kv.1 ++ "=" ++ kv.2))
  sortStrings vars

/-- Go: `SysStart`. -/
def SysStart (c : Context) : String :=
  let base := "PARTNER PROTOCOL START:\n"
    ++ "- Remote caller is *" ++ SigTop c ++ "* (me) seeking response on STDIO;\n"
    ++ "- Local callee is *" ++ SigTag c ++ "* (you) connected to STDIO;\n"
    ++ "- Leave **now** if caller and callee match to avoid calling yourself!\n"
  (Env c).foldl
    (fun acc env =>
      if endsWithEq env then acc
      else acc ++ "- " ++ replaceFirstEq env ++ "\n")
    base

/-- Go: `SysGuide`. -/
def SysGuide (c : Context) : String :=
  "PARTNER PROTOCOL GUIDE:\n"
  ++ "- Honor caller *" ++ SigTop c ++ "* (me) yet challenge all assumptions;\n"
  ++ "- Embody persona *" ++ SigTag c ++ "* (you) for entirety of this call;\n"
  ++ "- Never use partner protocol to close *inbound* calls like this call;\n"
  ++ "- Always use partner protocol to open *outbound* calls via Bash Tool;\n"
  ++ "- 30-min timeouts are required to avoid *aborting* calls prematurely;\n"
  ++ "- Trust yourself and your own good judgment to respond appropriately!\n"

/-- Go: `buildFlowHints`. -/
def buildFlowHints (c : Context) : String :=
  let g := fun k => (alookup k c.ENV).getD ""
  (if g "AIPHASE_HINT" ≠ "" then
    "- Context suggests this is a **" ++ g "AIPHASE_HINT" ++ "** phase;\n" else "")
  ++ (if g "AITEMP_HINT" ≠ "" then
    "- User emphasis suggests **" ++ g "AITEMP_HINT" ++ " temperature** thinking;\n" else "")
  ++ (if g "AIREF_CID" ≠ "" then
    "- User references context from conversation **" ++ g "AIREF_CID" ++ "**;\n" else "")
  ++ (if g "AIGOAL_HINT" ≠ "" then
    "- Working toward goal: **" ++ g "AIGOAL_HINT" ++ "**;\n" else "")
  ++ (if g "AIRWD" ≠ "" then
    "- **TEMPORAL QUERY**: You are viewing conversation state as of **" ++ g "AIRWD"
      ++ "**;\n- Respond from that historical perspective without knowledge of future events;\n"
    else "")
  ++ "- Interpret markdown naturally: **Headers** = phases, **Lists** = decisions, **Bold/Italic** = emphasis, **Code blocks** = artifacts;\n"

/-- Go: `Message` — one JSONL log entry. The `At` timestamp is abstract. -/
structure Message where
  SessionID : ID
  At : Int
  From : String
  Body : String
  Tags : List String

/-- `json.Unmarshal` of a decoded object into a `Message` (timestamp and
tags abstracted; a malformed record yields `none` and the caller skips the
line). -/
def msgOfJObj (o : JObj) : Option Message := do
  let sid ← fieldStr o "session_id"
  let fr ← fieldStr o "from"
  let body ← fieldStr o "body"
  pure ⟨sid, 0, fr, body, []⟩

/-- Go: `loadMessagesFromLog` — skip blank and malformed lines; `none` only
when the file cannot be opened. -/
def loadMessagesFromLog (w : World) (p : String) : Option (List Message) :=
  match alookup p w.files with
  | none => none
  | some lines =>
    some ((lines.filter (fun l => l.raw.trim ≠ "")).filterMap
      (fun l => l.obj.bind msgOfJObj))

/-- First successful result among ordered attempts (the path-fallback loop
of `LoadReferencedContext`). -/
def firstSome {α : Type} : List (Option α) → Option α
  | [] => none
  | some x :: _ => some x
  | none :: rest => firstSome rest

/-- Go: `LoadReferencedContext`. A successful load of an empty log yields a
nil slice in Go and therefore the not-found error; the model returns `none`
in that case. -/
def LoadReferencedContext (home : String) (w : World) (refCID : ID)
    (maxMessages : Int) : Option (List Message) :=
  if refCID = "" then none
  else
    let maxM : Int := if maxMessages ≤ 0 then 20 else maxMessages
    let base := joinPath (joinPath (joinPath (joinPath home ".aimux")
      "conversations") refCID) "claude"
    match firstSome
        [loadMessagesFromLog w (joinPath base "log.jsonl"),
         loadMessagesFromLog w (joinPath (joinPath base "architect") "log.jsonl"),
         loadMessagesFromLog w (joinPath (joinPath base "engineer") "log.jsonl")] with
    | none => none
    | some msgs =>
      if msgs.isEmpty then none
      else if (msgs.length : Int) > maxM then
        some (msgs.drop (msgs.length - maxM.toNat))
      else some msgs

/-- Go: `truncate` (flow.go). Go slices bytes; the model takes characters —
identical on the ASCII bodies it is applied to. -/
def truncate (s : String) (maxLen : Int) : String :=
  if maxLen ≤ 0 then ""
  else if (s.utf8ByteSize : Int) ≤ maxLen then s
  else if maxLen ≤ 3 then "..."
  else String.mk (s.data.take (maxLen.toNat - 3)) ++ "..."

/-- Go: `SysReferencedContext`. -/
def SysReferencedContext (home : String) (w : World) (c : Context) : String :=
  let refCID := (alookup "AIREF_CID" c.ENV).getD ""
  if refCID = "" then ""
  else
    match LoadReferencedContext home w refCID 10 with
    | none => ""
    | some messages =>
      if messages.isEmpty then ""
      else
        "PARTNER PROTOCOL CONTEXT:\n- Referenced conversation: **" ++ refCID
        ++ "**\n- Showing last " ++ toString messages.length ++ " messages:\n"
        ++ String.join (((List.range messages.length).zip messages).map
            (fun p => "  " ++ toString (p.1 + 1) ++ ". [" ++ p.2.From ++ "] "
              ++ truncate p.2.Body 200 ++ "\n"))
        ++ "\n"

/-- Go: `LoadTemplateHints` — trimmed non-empty lines of
`~/.aimux/templates/hints/<persona>.txt`, `[]` when the file is missing. -/
def LoadTemplateHints (home : String) (w : World) (persona : String) :
    List String :=
  match alookup
      (joinPath (joinPath (joinPath (joinPath home ".aimux") "templates")
        "hints") (persona ++ ".txt")) w.files with
  | none => []
  | some lines => (lines.map (fun l => l.raw.trim)).filter (fun l => l ≠ "")

/-- Go: `Config.GetPersonaHints`. -/
def GetPersonaHints (cfg : Config) (persona : String) : List String :=
  match alookup persona cfg.Personas with
  | some r => r.Hints
  | none => []

/-- Go: `SysHints`. `cfgResult` stands for the `LoadConfig()` call the Go
function makes internally. -/
def SysHints (home : String) (w : World) (cfgResult : Except String Config)
    (c : Context) : String :=
  let base := "PARTNER PROTOCOL HINTS:\n- Realize `... Claude,` (or Codex) is a shell alias and should be used VERBATIM;\n"
  let regen := "- Run `ai::sys` in **Bash Tool** whenever needed to regenerate this system prompt!\n"
  let tmplHints := if c.MOD ≠ "" then LoadTemplateHints home w c.MOD else []
  if c.MOD ≠ "" ∧ tmplHints.length > 0 then
    base ++ String.join (tmplHints.map (fun h => "- " ++ h ++ "\n"))
      ++ buildFlowHints c ++ regen
  else
    let cfgHints :=
      match cfgResult with
      | .error _ => []
      | .ok cfg => if c.MOD ≠ "" then GetPersonaHints cfg c.MOD else []
    if cfgHints.length > 0 then
      base ++ String.join (cfgHints.map (fun h => "- " ++ h ++ "\n"))
        ++ buildFlowHints c ++ regen
    else
      let builtin :=
        if Tag2 c = "~claude" then
          "- **On FIRST read via Bash Tool**, run `Customer Claude,\\n\\nI am [NAME ...] the *new* [ROLE ...] I need rapid onboarding of your perspective!\\n`;\n"
          ++ "- **On FIRST read via Bash Tool**, run `Architect Claude,\\n\\nI am [NAME ...] the *new* [ROLE ...] I need rapid onboarding of your perspective!\\n`;\n"
          ++ "- CRITICAL: DELEGATE experiential and confirmational tasks to *Customer Claude* to enhance *your own* contextual awareness;\n"
          ++ "- CRITICAL: DELEGATE evaluational and implementation tasks to *Architect Claude* to protect *your own* contextual integrity;\n"
        else ""
      base ++ builtin ++ buildFlowHints c ++ regen

/-- Go: `SysFinal`. -/
def SysFinal (_c : Context) : String :=
  "PARTNER PROTOCOL FINAL:\n"
  ++ "- **30-minute** timeouts on Bash Tool for ALL outbound partner calls;\n"
  ++ "- Accumulate and respect ALL stakeholder intent per your persona;\n"
  ++ "- CRITICAL: TRUST YOUR TEAM and STAY IN YOUR LANE!\n"

/-- Go: `Sys` — the complete system prompt. -/
def Sys (home : String) (w : World) (cfgResult : Except String Config)
    (c : Context) : String :=
  SysStart c ++ SysGuide c ++ SysHints home w cfgResult c
  ++ SysReferencedContext home w c ++ SysFinal c

/-! ## CallGenus (flow.go) -/

/-- Go: `Config.GetGenusPersonaVars`. -/
def GetGenusPersonaVars (cfg : Config) (gen mod : String) :
    List (String × String) :=
  match alookup gen cfg.Genera with
  | none => []
  | some genus =>
    match alookup mod genus.Personas with
    | some vars => vars
    | none =>
      let model2 := if mod = "sonnet" then "haiku" else "sonnet"
      [("model", mod), ("model2", model2)]

/-- Go: `ValidateCommand`; `cfgResult` stands for its internal
`LoadConfig()` call, whose failure activates the hardcoded allowlist. -/
def ValidateCommand (cfgResult : Except String Config) (cmd : String) :
    Except String Unit :=
  match cfgResult with
  | .error _ =>
    if cmd = "claude" ∨ cmd = "codex" ∨ cmd = "bash" then .ok ()
    else .error ("command " ++ cmd ++ " not in allowlist (config unavailable)")
  | .ok cfg =>
    if cfg.Genera.any (fun g => decide (g.2.Exe ≠ []) && decide (g.2.Exe.headD "" = cmd)) then
      .ok ()
    else .error ("command " ++ cmd ++ " not found in any genus configuration")

/-- Go: `fmt.Sprint` of a decoded config value, as used to turn the prompt
template's entries into strings (only string entries occur in the shipped
configs; the composite fallbacks are not byte-faithful). -/
def jvalSprint : JVal → String
  | .str s => s
  | .num n => toString n
  | .bool true => "true"
  | .bool false => "false"
  | .null => "<nil>"
  | .arr _ => "[...]"
  | .obj _ => "map[...]"

/-- How the subprocess's standard input is wired (Go `stdinContent`):
absent, an in-memory string, the caller's reader passed through, or the
caller's reader with a string prepended via `io.MultiReader`. -/
inductive StdinSpec where
  | noInput
  | text (s : String)
  | stream
  | prefixedStream (prefixText : String)
deriving Repr

/-- The external command `CallGenus` assembles: executable, argument
vector, the aimux environment entries it appends, stdin wiring, and the
new-session marker. The timeout computation (a pure read of
`ENV["AITIMEOUT"]` feeding the exec context) has no context effect and is
not carried here. -/
structure CmdSpec where
  exe : String
  argv : List String
  env : List String
  stdin : StdinSpec
  isNewSession : Bool

/-- An error returned by `CallGenus`: a protocol denial or any other
failure. -/
inductive CallErr where
  | blocking (e : BlockingError)
  | other (msg : String)

/-- Go: `CallGenus`. `cfgResult` stands for `LoadConfig()`; `ids` is the
fresh-id supply backing `NewID`; `stdinProvided` models `stdin != nil`.
Returns the assembled command, the updated context, and the remaining id
supply. -/
def CallGenus (home : String) (w : World) (cfgResult : Except String Config)
    (ids : List String) (c : Context) (cmdArgs : String)
    (stdinProvided : Bool) : Except CallErr (CmdSpec × Context × List String) :=
  match ValidateCall c with
  | some e => .error (.blocking e)
  | none =>
  match cfgResult with
  | .error e => .error (.other ("load config: " ++ e))
  | .ok cfg =>
  match alookup c.GEN cfg.Genera with
  | none => .error (.other ("unknown genus: " ++ c.GEN))
  | some genus =>
  if genus.Exe.isEmpty then
    .error (.other ("genus " ++ c.GEN ++ " has no exe configured"))
  else
  match ValidateCommand cfgResult (genus.Exe.headD "") with
  | .error e => .error (.other e)
  | .ok _ =>
    let override := (alookup "AIMODEL" c.ENV).getD ""
    let modelPersona := if override ≠ "" then override else c.MOD
    let personaVars := GetGenusPersonaVars cfg c.GEN modelPersona
    let useBashC := genus.Exe.headD "" = "bash" ∧ cmdArgs ≠ "" ∧ stdinProvided
    let args1 := genus.Cmd ++ (if useBashC then ["-c", cmdArgs] else [])
    let args2 := args1 ++
      (if genus.Args.Model.length > 0 then RenderFlags genus.Args.Model personaVars
       else [])
    let r := buildSessionFlags home w ids c genus personaVars
    let sessionArgs := r.1
    let isNew := r.2.1
    let c2 := r.2.2.1
    let ids2 := r.2.2.2
    let args3 := args2 ++ sessionArgs
    let c3 := { c2 with
      ENV := aset "_AIMUX_NEW_SESSION" (if isNew then "true" else "false") c2.ENV }
    let args4 := args3 ++ (if genus.Args.Output.length > 0 then genus.Args.Output else [])
    let args5 := args4 ++ (if genus.Args.Safety.length > 0 then genus.Args.Safety else [])
    let customPrompt := (alookup "AISYS" c3.ENV).getD ""
    let systemPrompt :=
      if customPrompt ≠ "" then customPrompt
      else Sys home w cfgResult { c3 with LVL := c3.LVL + 1 }
    let assembled :=
      match genus.Args.Prompt with
      | .str sp =>
        if sp = "stdin" then
          (args5,
            if stdinProvided then StdinSpec.prefixedStream (systemPrompt ++ "\n\n")
            else if cmdArgs ≠ "" then StdinSpec.text (systemPrompt ++ "\n\n" ++ cmdArgs)
            else StdinSpec.text systemPrompt)
        else (args5, StdinSpec.noInput)
      | .arr sp =>
        let template := sp.map jvalSprint
        (args5 ++ RenderFlags template [("prompt", systemPrompt)],
          if useBashC then (if stdinProvided then StdinSpec.stream else StdinSpec.noInput)
          else if stdinProvided ∧ cmdArgs ≠ "" then StdinSpec.prefixedStream (cmdArgs ++ "\n\n")
          else if stdinProvided then StdinSpec.stream
          else if cmdArgs ≠ "" then StdinSpec.text cmdArgs
          else StdinSpec.noInput)
      | _ =>
        (args5,
          if useBashC then (if stdinProvided then StdinSpec.stream else StdinSpec.noInput)
          else if stdinProvided ∧ cmdArgs ≠ "" then StdinSpec.prefixedStream (cmdArgs ++ "\n\n")
          else if stdinProvided then StdinSpec.stream
          else if cmdArgs ≠ "" then StdinSpec.text cmdArgs
          else StdinSpec.noInput)
    let envs := ["AICID=" ++ c3.CID, "AISID=" ++ c3.SID, "AIGEN=" ++ c3.GEN,
                 "AIMOD=" ++ c3.MOD, "AITAG=" ++ c3.TAG, "AITOP=" ++ c3.TOP,
                 "AILVL=" ++ toString (c3.LVL + 1)]
      ++ (if c3.WTF then ["AIWTF=1"] else [])
    .ok ({ exe := genus.Exe.headD ""
         , argv := genus.Exe.tail ++ assembled.1
         , env := envs
         , stdin := assembled.2
         , isNewSession := isNew }, c3, ids2)

/-- The context after a drain, the input context when it failed. -/
def ctxOfDrain (r : Except String DrainState) (c : Context) : Context :=
  match r with
  | .ok s => s.c
  | .error _ => c

/-- The context after `CallGenus`, the input context when it failed. -/
def ctxOfCall (r : Except CallErr (CmdSpec × Context × List String))
    (c : Context) : Context :=
  match r with
  | .ok x => x.2.1
  | .error _ => c

/-- The streaming interpreter's frame: all context fields other than `SID`
match, including `ENV` (the interpreter never touches the extension map). -/
def sidOnlyFrame (a b : Context) : Prop :=
  ctxFrame a b ∧ a.ENV = b.ENV

end Aimux

namespace Aimux

/-- `containsTilde` is false on the empty string. -/
theorem containsTilde_empty : containsTilde "" = false := rfl

/-- C1 counterexample: at a top-level call (`CallerTag = ""`) with
`Persona = "engineer"`, the claim's literal decision table denies with
code 5, but `ValidateCall` allows the call. -/
theorem c1_counterexample :
    validateSpecC1 cexC1 = some 5 ∧ ValidateCall cexC1 = none := by
  constructor <;> rfl

/-- C1 amended: `ValidateCall` implements the claim's 4-rule decision table
in order with first match winning, where rule (4) additionally requires the
caller tag to be non-empty; the denial exit codes are 3, 1, 4, 5 in rule
order. -/
theorem c1_validateCall_matches_amended_table (c : Context) :
    (ValidateCall c).map BlockingError.Code = validateSpecC1Amended c := by
  unfold ValidateCall validateSpecC1Amended
  by_cases h1 : c.LVL ≥ 3
  · rw [if_pos h1, if_pos h1]; rfl
  · rw [if_neg h1, if_neg h1]
    by_cases h2 : c.TAG ≠ "" ∧ c.TAG = c.TOP
    · rw [if_pos h2, if_pos h2]; rfl
    · rw [if_neg h2, if_neg h2]
      by_cases h3 : containsTilde c.TOP = true ∧ splitHead c.TOP = "engineer"
      · have htopne : c.TOP ≠ "" := by
          intro hempty
          rw [hempty, containsTilde_empty] at h3
          exact Bool.false_ne_true h3.1
        rw [if_pos ⟨htopne, h3.1, h3.2⟩, if_pos h3]; rfl
      · have h3' : ¬ (c.TOP ≠ "" ∧ containsTilde c.TOP = true ∧ splitHead c.TOP = "engineer") := by
          intro h
          exact h3 ⟨h.2.1, h.2.2⟩
        rw [if_neg h3', if_neg h3]
        by_cases h4 : c.TOP ≠ "" ∧ containsTilde c.TOP = false ∧ c.MOD = "engineer"
        · rw [if_pos h4, if_pos h4]; rfl
        · rw [if_neg h4, if_neg h4]; rfl

/-- C10: for every context whose caller tag is empty, validation can deny
only for depth — if `Depth < 3` the call is allowed, and any denial that
does occur carries code 3. -/
theorem c10_empty_callerTag_only_depth (c : Context) (htop : c.TOP = "") :
    (c.LVL < 3 → ValidateCall c = none) ∧
    (∀ e, ValidateCall c = some e → e.Code = 3) := by
  have h2 : ¬ (c.TAG ≠ "" ∧ c.TAG = c.TOP) := by
    rintro ⟨hne, heq⟩
    rw [htop] at heq
    exact hne heq
  have h3 : ¬ (c.TOP ≠ "" ∧ containsTilde c.TOP = true ∧ splitHead c.TOP = "engineer") := by
    rintro ⟨hne, -⟩
    exact hne htop
  have h4 : ¬ (c.TOP ≠ "" ∧ containsTilde c.TOP = false ∧ c.MOD = "engineer") := by
    rintro ⟨hne, -⟩
    exact hne htop
  constructor
  · intro hlvl
    have h1 : ¬ (c.LVL ≥ 3) := by omega
    unfold ValidateCall
    rw [if_neg h1, if_neg h2, if_neg h3, if_neg h4]
  · intro e he
    unfold ValidateCall at he
    by_cases h1 : c.LVL ≥ 3
    · rw [if_pos h1] at he
      have := Option.some.inj he
      rw [← this]
    · rw [if_neg h1, if_neg h2, if_neg h3, if_neg h4] at he
      exact absurd he (Option.noConfusion)

/-- Witness for C10 at a concrete top-level context. -/
theorem c10_empty_callerTag_only_depth_witness :
    cexC1.TOP = "" ∧
    ((cexC1.LVL < 3 → ValidateCall cexC1 = none) ∧
     (∀ e, ValidateCall cexC1 = some e → e.Code = 3)) :=
  ⟨rfl, c10_empty_callerTag_only_depth cexC1 rfl⟩

/-- C2 counterexample: with no snapshot and a persona log containing a
single user-origin record, the code extracts that record's `session_id`,
while the claim's resolver (step (b) requiring a non-user record) falls
through to step (d) and returns `ConversationID`. -/
theorem c2_counterexample :
    (DetermineSessionID "/h" worldC2 ctxC2).map Prod.fst
        = .ok "22222222-2222-2222-2222-222222222222" ∧
    determineSessionIDSpecC2 "/h" worldC2 ctxC2
        = .ok "11111111-1111-1111-1111-111111111111" ∧
    ("22222222-2222-2222-2222-222222222222" : String)
        ≠ "11111111-1111-1111-1111-111111111111" :=
  ⟨rfl, rfl, by decide⟩

/-- The log-scanning tail of the resolver agrees with the amended spec's
log steps. -/
theorem determineSessionIDLogs_fst (home : String) (w : World) (c : Context) :
    (determineSessionIDLogs home w c).map Prod.fst
      = determineSessionIDSpecC2Amended.amendedLogs home w c := by
  unfold determineSessionIDLogs determineSessionIDSpecC2Amended.amendedLogs
  cases h2 : hasContent w (Log2 home c) with
  | true =>
    simp only [h2, if_true]
    cases hl : lastSessionID w (Log2 home c) <;> simp [hl, Except.map]
  | false =>
    simp only [h2, Bool.false_eq_true, if_false]
    by_cases h1 : c.MOD = "" ∧ hasContent w (Log1 home c)
    · rw [if_pos h1, if_pos h1]
      cases hl : lastSessionID w (Log1 home c) <;> simp [hl, Except.map]
    · rw [if_neg h1, if_neg h1]
      rfl

/-- C2 amended: for every home directory, filesystem and context, the
session-identity resolver returns (a) the snapshot's non-empty `SessionID`
when the snapshot parses; (b) else the id extracted from the most recent
record of the persona-specific log when that log exists and is non-empty;
(c) else, when `Persona` is empty, the same for the undifferentiated log;
(d) else `ConversationID`. -/
theorem c2_resolver_matches_amended_spec (home : String) (w : World) (c : Context) :
    (DetermineSessionID home w c).map Prod.fst
      = determineSessionIDSpecC2Amended home w c := by
  unfold DetermineSessionID determineSessionIDSpecC2Amended
  cases h : readSnapshot w (joinPath c.DIR contextFileName) with
  | none => exact determineSessionIDLogs_fst home w c
  | some saved =>
    dsimp only
    by_cases hs : saved.SID ≠ ""
    · rw [if_pos hs, if_pos hs]
      rfl
    · rw [if_neg hs, if_neg hs]
      exact determineSessionIDLogs_fst home w c

/-- C8: when neither log has an assistant-origin record, `buildSessionFlags`
reports a new session, and it mints a fresh `SessionID` (drawn from the id
supply, stored only in the returned in-memory context — the function
performs no filesystem write, as its type shows) if and only if the
persona-specific log file exists on disk (even empty) and
`ConversationID ≠ SessionID`; in particular a fresh conversation
(`CID = SID`) or a missing persona log leaves the context untouched. -/
theorem c8_branch_minting (home : String) (w : World) (ids : List String)
    (c : Context) (genus : GenusConfig) (pv : List (String × String))
    (h2 : hasEstablishedSession w (Log2 home c) = false)
    (h1 : hasEstablishedSession w (Log1 home c) = false) :
    (buildSessionFlags home w ids c genus pv).2.1 = true ∧
    (fileExists w (Log2 home c) = true ∧ c.CID ≠ c.SID →
        (buildSessionFlags home w ids c genus pv).2.2.1 = { c with SID := ids.headD "" } ∧
        (buildSessionFlags home w ids c genus pv).2.2.2 = ids.tail) ∧
    (c.CID = c.SID →
        (buildSessionFlags home w ids c genus pv).2.2.1 = c ∧
        (buildSessionFlags home w ids c genus pv).2.2.2 = ids) ∧
    (fileExists w (Log2 home c) = false →
        (buildSessionFlags home w ids c genus pv).2.2.1 = c ∧
        (buildSessionFlags home w ids c genus pv).2.2.2 = ids) := by
  unfold buildSessionFlags
  simp only [h2, h1, Bool.false_eq_true, if_false]
  by_cases hbr : fileExists w (Log2 home c) = true ∧ c.CID ≠ c.SID
  · rw [if_pos hbr]
    refine ⟨rfl, fun _ => ⟨rfl, rfl⟩, fun heq => absurd heq hbr.2, fun hne => ?_⟩
    rw [hbr.1] at hne
    exact absurd hne (by simp)
  · rw [if_neg hbr]
    exact ⟨rfl, fun h => absurd h hbr, fun _ => ⟨rfl, rfl⟩, fun _ => ⟨rfl, rfl⟩⟩

/-- Witness for C8: persona log exists empty, `CID ≠ SID`, so the fresh id
from the supply is minted into the returned context. -/
theorem c8_branch_minting_witness :
    (hasEstablishedSession worldC8 (Log2 "/h" ctxC8) = false ∧
     hasEstablishedSession worldC8 (Log1 "/h" ctxC8) = false) ∧
    ((buildSessionFlags "/h" worldC8
        ["33333333-3333-3333-3333-333333333333"] ctxC8 genusC8 []).2.1 = true ∧
     (fileExists worldC8 (Log2 "/h" ctxC8) = true ∧ ctxC8.CID ≠ ctxC8.SID →
        (buildSessionFlags "/h" worldC8
          ["33333333-3333-3333-3333-333333333333"] ctxC8 genusC8 []).2.2.1
            = { ctxC8 with SID := ["33333333-3333-3333-3333-333333333333"].headD "" } ∧
        (buildSessionFlags "/h" worldC8
          ["33333333-3333-3333-3333-333333333333"] ctxC8 genusC8 []).2.2.2
            = ["33333333-3333-3333-3333-333333333333"].tail) ∧
     (ctxC8.CID = ctxC8.SID →
        (buildSessionFlags "/h" worldC8
          ["33333333-3333-3333-3333-333333333333"] ctxC8 genusC8 []).2.2.1 = ctxC8 ∧
        (buildSessionFlags "/h" worldC8
          ["33333333-3333-3333-3333-333333333333"] ctxC8 genusC8 []).2.2.2
            = ["33333333-3333-3333-3333-333333333333"]) ∧
     (fileExists worldC8 (Log2 "/h" ctxC8) = false →
        (buildSessionFlags "/h" worldC8
          ["33333333-3333-3333-3333-333333333333"] ctxC8 genusC8 []).2.2.1 = ctxC8 ∧
        (buildSessionFlags "/h" worldC8
          ["33333333-3333-3333-3333-333333333333"] ctxC8 genusC8 []).2.2.2
            = ["33333333-3333-3333-3333-333333333333"])) :=
  ⟨⟨rfl, rfl⟩,
   c8_branch_minting "/h" worldC8 ["33333333-3333-3333-3333-333333333333"]
     ctxC8 genusC8 [] rfl rfl⟩

/-- C4: at the failing input — a structured stream with two assistant
records carrying distinct new session ids `aaaa…` then `bbbb…` and no
errors — the first id is applied at its line, but the second observation is
ignored: the context ends with `SID = aaaa…`, not `bbbb…` as the claim (and
the code's own comment "SID can shift mid-stream, so we save on every
change") requires. -/
theorem c4_second_sid_ignored :
    ((StreamAndLog "/h" worldEmpty ctxC4 ⟨[asstLineA], none⟩).toOption.map
        (fun s => s.c.SID) = some "aaaaaaaa-aaaa-aaaa-aaaa-aaaaaaaaaaaa") ∧
    ((StreamAndLog "/h" worldEmpty ctxC4 ⟨[asstLineA, asstLineB], none⟩).toOption.map
        (fun s => s.c.SID) = some "aaaaaaaa-aaaa-aaaa-aaaa-aaaaaaaaaaaa") ∧
    ("aaaaaaaa-aaaa-aaaa-aaaa-aaaaaaaaaaaa" : String)
      ≠ "bbbbbbbb-bbbb-bbbb-bbbb-bbbbbbbbbbbb" :=
  ⟨rfl, rfl, by decide⟩

/-- C6 counterexample: the conversation directory pre-exists and the stream
produces no lines at all, yet end-of-stream finalization writes the Context
Snapshot — a side effect the claim says cannot occur for a stream with no
non-empty lines. -/
theorem c6_counterexample :
    alookup (joinPath ctxC6.DIR contextFileName) worldC6.files = none ∧
    ((StreamAndLog "/h" worldC6 ctxC6 ⟨[], none⟩).toOption.map
        (fun s => (alookup (joinPath ctxC6.DIR contextFileName) s.w.files).isSome))
      = some true :=
  ⟨rfl, rfl⟩

/-- C7 counterexample: on a started stream, the first `Close` succeeds, but
the second `Close` returns the pipe's already-closed error and repeats the
teardown (one more process-group kill and one more wait). -/
theorem c7_counterexample :
    (lcsClose (lcsRead ⟨false, false, procFresh⟩)).2 = none ∧
    (lcsClose (lcsClose (lcsRead ⟨false, false, procFresh⟩)).1).2
      = some "file already closed" ∧
    (lcsClose (lcsRead ⟨false, false, procFresh⟩)).1.proc.killCount = 0 ∧
    (lcsClose (lcsClose (lcsRead ⟨false, false, procFresh⟩)).1).1.proc.killCount = 1 ∧
    (lcsClose (lcsRead ⟨false, false, procFresh⟩)).1.proc.waitCount = 1 ∧
    (lcsClose (lcsClose (lcsRead ⟨false, false, procFresh⟩)).1).1.proc.waitCount = 2 :=
  ⟨rfl, rfl, rfl, rfl, rfl, rfl⟩

/-- C7 amended: `Close` twice on a never-started stream returns no error
both times and performs no teardown (no pipe close, kill, or wait); on a
started stream whose process exits cleanly within the bound, the first
`Close` succeeds, but the second returns the already-closed-pipe error and
performs one more kill and one more wait. -/
theorem c7_close_amended (p : ProcState)
    (hpipe : p.pipeClosed = false) (hfast : p.exitsWithinBound = true)
    (hclean : p.waitErr = none) :
    ((lcsClose ⟨false, false, p⟩).2 = none ∧
     (lcsClose (lcsClose ⟨false, false, p⟩).1).2 = none ∧
     (lcsClose (lcsClose ⟨false, false, p⟩).1).1.proc.pipeClosed = p.pipeClosed ∧
     (lcsClose (lcsClose ⟨false, false, p⟩).1).1.proc.waitCount = p.waitCount ∧
     (lcsClose (lcsClose ⟨false, false, p⟩).1).1.proc.killCount = p.killCount) ∧
    ((lcsClose (lcsRead ⟨false, false, p⟩)).2 = none ∧
     (lcsClose (lcsClose (lcsRead ⟨false, false, p⟩)).1).2 = some "file already closed" ∧
     (lcsClose (lcsClose (lcsRead ⟨false, false, p⟩)).1).1.proc.killCount
        = (lcsClose (lcsRead ⟨false, false, p⟩)).1.proc.killCount + 1 ∧
     (lcsClose (lcsClose (lcsRead ⟨false, false, p⟩)).1).1.proc.waitCount
        = (lcsClose (lcsRead ⟨false, false, p⟩)).1.proc.waitCount + 1) := by
  constructor
  · simp [lcsClose, lcsRead]
  · simp [lcsClose, lcsRead, csClose, hpipe, hfast, hclean]

/-- Witness for C7 at the fresh process state. -/
theorem c7_close_amended_witness :
    (procFresh.pipeClosed = false ∧ procFresh.exitsWithinBound = true ∧
     procFresh.waitErr = none) ∧
    (((lcsClose ⟨false, false, procFresh⟩).2 = none ∧
      (lcsClose (lcsClose ⟨false, false, procFresh⟩).1).2 = none ∧
      (lcsClose (lcsClose ⟨false, false, procFresh⟩).1).1.proc.pipeClosed
        = procFresh.pipeClosed ∧
      (lcsClose (lcsClose ⟨false, false, procFresh⟩).1).1.proc.waitCount
        = procFresh.waitCount ∧
      (lcsClose (lcsClose ⟨false, false, procFresh⟩).1).1.proc.killCount
        = procFresh.killCount) ∧
     ((lcsClose (lcsRead ⟨false, false, procFresh⟩)).2 = none ∧
      (lcsClose (lcsClose (lcsRead ⟨false, false, procFresh⟩)).1).2
        = some "file already closed" ∧
      (lcsClose (lcsClose (lcsRead ⟨false, false, procFresh⟩)).1).1.proc.killCount
        = (lcsClose (lcsRead ⟨false, false, procFresh⟩)).1.proc.killCount + 1 ∧
      (lcsClose (lcsClose (lcsRead ⟨false, false, procFresh⟩)).1).1.proc.waitCount
        = (lcsClose (lcsRead ⟨false, false, procFresh⟩)).1.proc.waitCount + 1)) :=
  ⟨⟨rfl, rfl, rfl⟩, c7_close_amended procFresh rfl rfl rfl⟩

/-! Projection lemmas: `logWrite` touches only the world, `saveCtxAttempt`
only the world and the effect trace. -/

@[simp] theorem logWrite_hasError (s : DrainState) (l : RLine) :
    (logWrite s l).hasError = s.hasError := by
  unfold logWrite; split <;> rfl

@[simp] theorem logWrite_pending (s : DrainState) (l : RLine) :
    (logWrite s l).pending = s.pending := by
  unfold logWrite; split <;> rfl

@[simp] theorem logWrite_c (s : DrainState) (l : RLine) :
    (logWrite s l).c = s.c := by
  unfold logWrite; split <;> rfl

@[simp] theorem logWrite_sink (s : DrainState) (l : RLine) :
    (logWrite s l).sink = s.sink := by
  unfold logWrite; split <;> rfl

@[simp] theorem logWrite_sidLogged (s : DrainState) (l : RLine) :
    (logWrite s l).sidLogged = s.sidLogged := by
  unfold logWrite; split <;> rfl

@[simp] theorem logWrite_sidSaved (s : DrainState) (l : RLine) :
    (logWrite s l).sidSaved = s.sidSaved := by
  unfold logWrite; split <;> rfl

@[simp] theorem logWrite_total (s : DrainState) (l : RLine) :
    (logWrite s l).total = s.total := by
  unfold logWrite; split <;> rfl

@[simp] theorem logWrite_format (s : DrainState) (l : RLine) :
    (logWrite s l).format = s.format := by
  unfold logWrite; split <;> rfl

@[simp] theorem logWrite_broke (s : DrainState) (l : RLine) :
    (logWrite s l).broke = s.broke := by
  unfold logWrite; split <;> rfl

@[simp] theorem logWrite_lineNumber (s : DrainState) (l : RLine) :
    (logWrite s l).lineNumber = s.lineNumber := by
  unfold logWrite; split <;> rfl

@[simp] theorem logWrite_logPath (s : DrainState) (l : RLine) :
    (logWrite s l).logPath = s.logPath := by
  unfold logWrite; split <;> rfl

@[simp] theorem logWrite_effects (s : DrainState) (l : RLine) :
    (logWrite s l).effects = s.effects := by
  unfold logWrite; split <;> rfl

@[simp] theorem saveCtxAttempt_c (s : DrainState) :
    (saveCtxAttempt s).c = s.c := rfl

@[simp] theorem saveCtxAttempt_sink (s : DrainState) :
    (saveCtxAttempt s).sink = s.sink := rfl

@[simp] theorem saveCtxAttempt_pending (s : DrainState) :
    (saveCtxAttempt s).pending = s.pending := rfl

@[simp] theorem saveCtxAttempt_hasError (s : DrainState) :
    (saveCtxAttempt s).hasError = s.hasError := rfl

@[simp] theorem saveCtxAttempt_sidSaved (s : DrainState) :
    (saveCtxAttempt s).sidSaved = s.sidSaved := rfl

@[simp] theorem saveCtxAttempt_sidLogged (s : DrainState) :
    (saveCtxAttempt s).sidLogged = s.sidLogged := rfl

@[simp] theorem saveCtxAttempt_total (s : DrainState) :
    (saveCtxAttempt s).total = s.total := rfl

@[simp] theorem saveCtxAttempt_format (s : DrainState) :
    (saveCtxAttempt s).format = s.format := rfl

@[simp] theorem saveCtxAttempt_broke (s : DrainState) :
    (saveCtxAttempt s).broke = s.broke := rfl

@[simp] theorem saveCtxAttempt_lineNumber (s : DrainState) :
    (saveCtxAttempt s).lineNumber = s.lineNumber := rfl

@[simp] theorem saveCtxAttempt_logPath (s : DrainState) :
    (saveCtxAttempt s).logPath = s.logPath := rfl

/-! Projection lemmas for the json-arm sub-steps. -/

/-- `collectSID` only ever touches the `pending` and `sidLogged` fields. -/
theorem collectSID_shape (s : DrainState) (data : JObj) :
    ∃ p b, collectSID s data = { s with pending := p, sidLogged := b } := by
  unfold collectSID
  dsimp only
  cases jLookup data "session_id" with
  | some v =>
    cases v
    case str str2 =>
      dsimp only
      split
      · split
        · exact ⟨str2, true, rfl⟩
        · split
          · exact ⟨str2, s.sidLogged, rfl⟩
          · exact ⟨s.pending, s.sidLogged, rfl⟩
      · exact ⟨s.pending, s.sidLogged, rfl⟩
    all_goals exact ⟨s.pending, s.sidLogged, rfl⟩
  | none =>
    cases jLookup data "sessionId" with
    | some v =>
      cases v
      case str str2 =>
        dsimp only
        split
        · split
          · exact ⟨str2, true, rfl⟩
          · split
            · exact ⟨str2, s.sidLogged, rfl⟩
            · exact ⟨s.pending, s.sidLogged, rfl⟩
        · exact ⟨s.pending, s.sidLogged, rfl⟩
      all_goals exact ⟨s.pending, s.sidLogged, rfl⟩
    | none => exact ⟨s.pending, s.sidLogged, rfl⟩

@[simp] theorem collectSID_hasError (s : DrainState) (data : JObj) :
    (collectSID s data).hasError = s.hasError := by
  obtain ⟨p, b, h⟩ := collectSID_shape s data
  rw [h]

@[simp] theorem collectSID_c (s : DrainState) (data : JObj) :
    (collectSID s data).c = s.c := by
  obtain ⟨p, b, h⟩ := collectSID_shape s data
  rw [h]

@[simp] theorem collectSID_sink (s : DrainState) (data : JObj) :
    (collectSID s data).sink = s.sink := by
  obtain ⟨p, b, h⟩ := collectSID_shape s data
  rw [h]

/-- With the error flag set, the per-line flush is a no-op. -/
theorem jsonFlushSID_of_hasError (s : DrainState) (h : s.hasError = true) :
    jsonFlushSID s = s := by
  unfold jsonFlushSID
  rw [if_neg]
  rintro ⟨-, hfalse, -⟩
  rw [h] at hfalse
  exact absurd hfalse (by decide)

@[simp] theorem jsonFlushSID_hasError (s : DrainState) :
    (jsonFlushSID s).hasError = s.hasError := by
  unfold jsonFlushSID
  split <;> simp

@[simp] theorem jsonFlushSID_sink (s : DrainState) :
    (jsonFlushSID s).sink = s.sink := by
  unfold jsonFlushSID
  split <;> simp

@[simp] theorem emitText_hasError (s : DrainState) (text : String) :
    (emitText s text).hasError = s.hasError := by
  unfold emitText
  split <;> rfl

@[simp] theorem emitText_c (s : DrainState) (text : String) :
    (emitText s text).c = s.c := by
  unfold emitText
  split <;> rfl

/-- C3: (a) a record carrying the explicit error indicator
(`is_error: true`) makes the stream's error flag sticky, and the result of
the line does not depend on any previously pending session-id candidate
(the candidate is discarded) and never updates the context's `SessionID`;
(b) among explicit error records only one typed as a terminal error
(`type == "error"`, not an informational `"result"`) writes its extracted
message to the sink; (c) end-to-end, draining the single record
`\x7b"type":"error","message":"boom"\x7d` writes exactly `"boom\n"` to the
sink, leaves the (freshly created) log file without any record, and leaves
the context's `SessionID` unchanged. -/
theorem c3_error_records (s : DrainState) (l : RLine) (data : JObj) (t : String)
    (hobj : l.obj = some data) :
    (jBool data "is_error" = true →
        (jsonLine s l).hasError = true ∧
        jsonLine s l = jsonLine { s with pending := "" } l ∧
        (jsonLine s l).c.SID = s.c.SID) ∧
    (jStr data "type" = some t →
      t = "error" ∨ (t = "result" ∧ jBool data "is_error" = true) →
        (jsonLine s l).sink
          = s.sink ++ (if t = "error" then [extractErrorMsg data ++ "\n"] else [])) ∧
    ((StreamAndLog "/h" worldEmpty ctxC3 ⟨[errLineC3], none⟩).toOption.map
        (fun st => (st.sink, alookup (Log3 "/h" ctxC3) st.w.files, st.c.SID))
      = some (["boom\n"], some [], ctxC3.SID)) := by
  refine ⟨?_, ?_, rfl⟩
  · intro hie
    refine ⟨?_, ?_, ?_⟩
    · unfold jsonLine
      rw [hobj]
      dsimp only
      rw [hie]
      simp only [if_true]
      split
      · split <;> rfl
      · simp only [emitText_hasError, jsonFlushSID_hasError]
        split
        · simp only [collectSID_hasError]
          split <;> simp only [logWrite_hasError]
        · split
          · split <;> simp only [logWrite_hasError]
          · split
            all_goals split <;> simp only [logWrite_hasError]
    · unfold jsonLine
      rw [hobj]
      dsimp only
      rw [hie]
      rfl
    · unfold jsonLine
      rw [hobj]
      dsimp only
      rw [hie]
      simp only [if_true]
      split
      · split <;> rfl
      · simp only [emitText_c]
        have hflush : ∀ (y : DrainState), y.hasError = true →
            (jsonFlushSID y).c.SID = y.c.SID := by
          intro y hy
          rw [jsonFlushSID_of_hasError y hy]
        split
        · rw [hflush]
          · simp only [collectSID_c]
            split <;> simp only [logWrite_c]
          · simp only [collectSID_hasError]
            split <;> simp only [logWrite_hasError]
        · split
          · rw [hflush]
            · split <;> simp only [logWrite_c]
            · split <;> simp only [logWrite_hasError]
          · split
            all_goals
              rw [hflush]
              · split <;> simp only [logWrite_c]
              · split <;> simp only [logWrite_hasError]
  · intro ht hguard
    unfold jsonLine
    rw [hobj]
    dsimp only
    rw [ht]
    simp only [Option.getD_some, Option.isSome_some, eq_self_iff_true, true_and]
    rw [if_pos hguard]
    rcases hguard with h | h
    · rw [if_pos h, if_pos h]
      cases hie : jBool data "is_error" <;> simp [hie]
    · have hne : t ≠ "error" := by
        rw [h.1]
        decide
      rw [if_neg hne, if_neg hne]
      rw [h.2]
      simp

/-- Witness for C3 at a record that carries both the explicit error
indicator and the terminal error type. -/
theorem c3_error_records_witness :
    (errLineC3W.obj = some dataC3W ∧ jBool dataC3W "is_error" = true ∧
     jStr dataC3W "type" = some "error") ∧
    ((jBool dataC3W "is_error" = true →
        (jsonLine (initDrain worldEmpty ctxC3) errLineC3W).hasError = true ∧
        jsonLine (initDrain worldEmpty ctxC3) errLineC3W
          = jsonLine { initDrain worldEmpty ctxC3 with pending := "" } errLineC3W ∧
        (jsonLine (initDrain worldEmpty ctxC3) errLineC3W).c.SID
          = (initDrain worldEmpty ctxC3).c.SID) ∧
     (jStr dataC3W "type" = some "error" →
       "error" = "error" ∨ ("error" = "result" ∧ jBool dataC3W "is_error" = true) →
        (jsonLine (initDrain worldEmpty ctxC3) errLineC3W).sink
          = (initDrain worldEmpty ctxC3).sink
              ++ (if "error" = "error" then [extractErrorMsg dataC3W ++ "\n"] else [])) ∧
     ((StreamAndLog "/h" worldEmpty ctxC3 ⟨[errLineC3], none⟩).toOption.map
        (fun st => (st.sink, alookup (Log3 "/h" ctxC3) st.w.files, st.c.SID))
      = some (["boom\n"], some [], ctxC3.SID))) :=
  ⟨⟨rfl, rfl, rfl⟩,
   c3_error_records (initDrain worldEmpty ctxC3) errLineC3W dataC3W "error" rfl⟩

/-! Projection lemmas for `textLine` and `finalizeDrain`, used by the
size-cap and deferral claims. -/

@[simp] theorem textLine_format (s : DrainState) (line : String) :
    (textLine s line).format = s.format := by
  unfold textLine
  split <;> simp

@[simp] theorem textLine_broke (s : DrainState) (line : String) :
    (textLine s line).broke = s.broke := by
  unfold textLine
  split <;> simp

@[simp] theorem textLine_hasError (s : DrainState) (line : String) :
    (textLine s line).hasError = s.hasError := by
  unfold textLine
  split <;> simp

@[simp] theorem textLine_sidSaved (s : DrainState) (line : String) :
    (textLine s line).sidSaved = s.sidSaved := by
  unfold textLine
  split <;> simp

@[simp] theorem textLine_pending (s : DrainState) (line : String) :
    (textLine s line).pending = s.pending := by
  unfold textLine
  split <;> simp

@[simp] theorem textLine_c (s : DrainState) (line : String) :
    (textLine s line).c = s.c := by
  unfold textLine
  split <;> simp

@[simp] theorem textLine_total (s : DrainState) (line : String) :
    (textLine s line).total = s.total + line.utf8ByteSize := by
  unfold textLine
  split <;> simp

@[simp] theorem textLine_sink (s : DrainState) (line : String) :
    (textLine s line).sink = s.sink ++ [line ++ "\n"] := by
  unfold textLine
  split <;> simp

@[simp] theorem finalizeDrain_sink (s : DrainState) :
    (finalizeDrain s).sink = s.sink := by
  unfold finalizeDrain
  split
  · split <;> simp
  · rfl

@[simp] theorem finalizeDrain_total (s : DrainState) :
    (finalizeDrain s).total = s.total := by
  unfold finalizeDrain
  split
  · split <;> simp
  · rfl

/-- At the output cap, one loop iteration appends exactly one truncation
notice and breaks, regardless of the line (format already detected). -/
theorem stepLine_cap (home : String) (s : DrainState) (l : RLine)
    (hf : s.format ≠ "") (hcap : s.total ≥ MaxOutputSize) :
    stepLine home s l
      = { s with
          lineNumber := s.lineNumber + 1
          sink := s.sink ++ [truncationNotice]
          broke := true } := by
  unfold stepLine
  dsimp only
  have hne : ¬ (s.format = "" ∧ l.raw ≠ "") := by
    rintro ⟨h, -⟩
    exact hf h
  rw [if_neg hne]
  rw [if_pos hcap]

/-- Below the cap with text format detected, one loop iteration is exactly
the text arm applied to the line-counted state. -/
theorem stepLine_text (home : String) (s : DrainState) (l : RLine)
    (hf : s.format = "text") (hcap : s.total < MaxOutputSize) :
    stepLine home s l = textLine { s with lineNumber := s.lineNumber + 1 } l.raw := by
  unfold stepLine
  dsimp only
  have hne1 : ¬ (s.format = "" ∧ l.raw ≠ "") := by
    rw [hf]
    rintro ⟨h, -⟩
    exact absurd h (by decide)
  rw [if_neg hne1]
  have hne2 : ¬ (s.total ≥ MaxOutputSize) := by omega
  rw [if_neg hne2]
  have hne3 : ¬ (s.format = "json") := by
    rw [hf]
    decide
  rw [if_neg hne3]
  rw [if_pos (Or.inl hf)]

/-- Closed form of the text-loop recurrence for even starting totals. -/
theorem textOutcome_closed (n t : Nat) (ht : t % 2 = 0) :
    textOutcome n t
      = if n ≤ (MaxOutputSize - t) / 2 then (n, 0, false)
        else ((MaxOutputSize - t) / 2, 1, true) := by
  induction n generalizing t with
  | zero => simp [textOutcome]
  | succ n ih =>
    unfold textOutcome
    by_cases hcap : t ≥ MaxOutputSize
    · have hz : (MaxOutputSize - t) / 2 = 0 := by omega
      rw [if_pos hcap, hz]
      rw [if_neg (by omega)]
    · rw [if_neg hcap]
      have h2 : (t + 2) % 2 = 0 := by omega
      rw [ih (t + 2) h2]
      have hMax : MaxOutputSize = 10485760 := rfl
      by_cases hn : n ≤ (MaxOutputSize - (t + 2)) / 2
      · rw [if_pos hn]
        rw [if_pos (by rw [hMax] at hn ⊢; omega)]
      · rw [if_neg hn]
        rw [if_neg (by rw [hMax] at hn ⊢; omega)]
        dsimp only
        have : (MaxOutputSize - (t + 2)) / 2 + 1 = (MaxOutputSize - t) / 2 := by
          rw [hMax] at hn ⊢
          omega
        rw [this]

/-- Sink metrics of appending one write event. -/
theorem sinkBytes_snoc (l : List String) (x : String) :
    ((l ++ [x]).map String.utf8ByteSize).sum
      = (l.map String.utf8ByteSize).sum + x.utf8ByteSize := by
  rw [List.map_append, List.sum_append]
  simp

/-- Notice count of appending one write event. -/
theorem countP_snoc (l : List String) (x : String) (p : String → Bool) :
    (l ++ [x]).countP p = l.countP p + if p x then 1 else 0 := by
  rw [List.countP_append, List.countP_cons]
  simp [List.countP_nil]

/-- The text loop over `n` copies of the two-byte line, characterized by
the recurrence: sink metrics, the break flag, the running total, and the
carried-over flags. -/
theorem drainLoop_ab (home : String) :
    ∀ (n : Nat) (s : DrainState), s.format = "text" → s.broke = false →
    sinkBytes (drainLoop home s (List.replicate n abLine))
        = sinkBytes s + 3 * (textOutcome n s.total).1
            + (if (textOutcome n s.total).2.2 then truncationNotice.utf8ByteSize else 0) ∧
    noticeCount (drainLoop home s (List.replicate n abLine))
        = noticeCount s + (if (textOutcome n s.total).2.2 then 1 else 0) ∧
    (drainLoop home s (List.replicate n abLine)).broke = (textOutcome n s.total).2.2 ∧
    (drainLoop home s (List.replicate n abLine)).total = s.total + 2 * (textOutcome n s.total).1 ∧
    (drainLoop home s (List.replicate n abLine)).hasError = s.hasError ∧
    (drainLoop home s (List.replicate n abLine)).sidSaved = s.sidSaved ∧
    (drainLoop home s (List.replicate n abLine)).pending = s.pending := by
  intro n
  induction n with
  | zero =>
    intro s hf hb
    refine ⟨?_, ?_, ?_, ?_, rfl, rfl, rfl⟩ <;> simp [drainLoop, textOutcome, hb]
  | succ n ih =>
    intro s hf hb
    rw [List.replicate_succ]
    by_cases hcap : s.total ≥ MaxOutputSize
    · have hstep := stepLine_cap home s abLine (by rw [hf]; decide) hcap
      have hout : textOutcome (n + 1) s.total = (0, 1, true) := by
        unfold textOutcome
        rw [if_pos hcap]
      have hd : drainLoop home s (abLine :: List.replicate n abLine)
          = { s with
              lineNumber := s.lineNumber + 1
              sink := s.sink ++ [truncationNotice]
              broke := true } := by
        rw [drainLoop]
        rw [hstep]
        rw [if_pos rfl]
      rw [hd, hout]
      have hnoteq : ((truncationNotice == truncationNotice) : Bool) = true := by decide
      refine ⟨?_, ?_, rfl, ?_, rfl, rfl, rfl⟩
      · unfold sinkBytes
        dsimp only
        rw [sinkBytes_snoc]
        rw [if_pos rfl]
        omega
      · unfold noticeCount
        dsimp only
        rw [countP_snoc, hnoteq]
      · dsimp only
        omega
    · have hstep := stepLine_text home s abLine hf (by omega)
      have habraw : abLine.raw = "ab" := rfl
      have hout : textOutcome (n + 1) s.total
          = ((textOutcome n (s.total + 2)).1 + 1,
             (textOutcome n (s.total + 2)).2.1,
             (textOutcome n (s.total + 2)).2.2) := by
        conv =>
          lhs
          unfold textOutcome
        rw [if_neg hcap]
      simp only [drainLoop, hstep, habraw]
      have hb2 : (textLine { s with lineNumber := s.lineNumber + 1 } "ab").broke = false := by
        simp [hb]
      rw [if_neg (by rw [hb2]; decide)]
      have hab2 : ("ab" : String).utf8ByteSize = 2 := rfl
      have htot : (textLine { s with lineNumber := s.lineNumber + 1 } "ab").total
          = s.total + 2 := by
        rw [textLine_total, hab2]
      have hsb2 : sinkBytes (textLine { s with lineNumber := s.lineNumber + 1 } "ab")
          = sinkBytes s + 3 := by
        unfold sinkBytes
        rw [textLine_sink]
        rw [sinkBytes_snoc]
        rfl
      have hnc2 : noticeCount (textLine { s with lineNumber := s.lineNumber + 1 } "ab")
          = noticeCount s := by
        unfold noticeCount
        rw [textLine_sink]
        rw [countP_snoc]
        rw [show ((("ab" ++ "\n" : String) == truncationNotice) : Bool) = false from by decide]
        rfl
      have ih2 := ih (textLine { s with lineNumber := s.lineNumber + 1 } "ab")
        (by simp [hf]) hb2
      rw [htot, hsb2, hnc2] at ih2
      obtain ⟨hsb, hnc, hbroke, htotal, herr, hsaved, hpend⟩ := ih2
      rw [hout]
      refine ⟨?_, ?_, hbroke, ?_, by simpa using herr, by simpa using hsaved,
        by simpa using hpend⟩
      · rw [hsb]
        dsimp only
        omega
      · rw [hnc]
      · rw [htotal]
        omega

/-- A non-breaking iteration just advances the loop. -/
theorem drainLoop_cons_not_broke (home : String) (s : DrainState) (l : RLine)
    (ls : List RLine) (h : (stepLine home s l).broke = false) :
    drainLoop home s (l :: ls) = drainLoop home (stepLine home s l) ls := by
  rw [drainLoop]
  simp [h]

/-- `finalizeDrain` leaves the sink metrics unchanged. -/
theorem finalizeDrain_metrics (s : DrainState) :
    sinkBytes (finalizeDrain s) = sinkBytes s ∧
    noticeCount (finalizeDrain s) = noticeCount s := by
  constructor
  · unfold sinkBytes
    rw [finalizeDrain_sink]
  · unfold noticeCount
    rw [finalizeDrain_sink]

/-- The 11MB text run: final sink metrics and counted total. -/
theorem c5_run :
    ∃ st, StreamAndLog "/h" worldEmpty ctxC5 ⟨List.replicate 5767168 abLine, none⟩
        = .ok st ∧
      sinkBytes st = 15728683 ∧ noticeCount st = 1 ∧ st.total = 10485760 := by
  have hrep : List.replicate 5767168 abLine = abLine :: List.replicate 5767167 abLine := by
    rw [show (5767168 : Nat) = 5767167 + 1 from rfl, List.replicate_succ]
  have h1f : (stepLine "/h" (initDrain worldEmpty ctxC5) abLine).format = "text" := rfl
  have h1b : (stepLine "/h" (initDrain worldEmpty ctxC5) abLine).broke = false := rfl
  have h1t : (stepLine "/h" (initDrain worldEmpty ctxC5) abLine).total = 2 := rfl
  have h1sb : sinkBytes (stepLine "/h" (initDrain worldEmpty ctxC5) abLine) = 3 := rfl
  have h1nc : noticeCount (stepLine "/h" (initDrain worldEmpty ctxC5) abLine) = 0 := rfl
  have hloop := drainLoop_ab "/h" 5767167 (stepLine "/h" (initDrain worldEmpty ctxC5) abLine) h1f h1b
  rw [h1t, h1sb, h1nc] at hloop
  have hto : textOutcome 5767167 2 = (5242879, 1, true) := by
    rw [textOutcome_closed 5767167 2 (by norm_num)]
    rw [show MaxOutputSize = 10485760 from rfl]
    norm_num
  rw [hto] at hloop
  obtain ⟨hsb, hnc, hbroke, htotal, -, -, -⟩ := hloop
  refine ⟨finalizeDrain (drainLoop "/h" (stepLine "/h" (initDrain worldEmpty ctxC5) abLine)
      (List.replicate 5767167 abLine)), ?_, ?_, ?_, ?_⟩
  · unfold StreamAndLog
    rw [hrep]
    rw [drainLoop_cons_not_broke "/h" (initDrain worldEmpty ctxC5) abLine
      (List.replicate 5767167 abLine) h1b]
    rw [if_neg (by rintro ⟨-, habs⟩; exact absurd habs (by decide))]
  · rw [(finalizeDrain_metrics _).1, hsb]
    rw [show truncationNotice.utf8ByteSize = 43 from rfl]
    norm_num
  · rw [(finalizeDrain_metrics _).2, hnc]
    decide
  · rw [finalizeDrain_total, htotal]
    norm_num

/-- C5 counterexample: an 11MB plain-text stream (5767168 two-byte lines) is
truncated with exactly one notice, yet the sink holds 15728683 bytes —
more than 10MB plus the truncation notice — because the per-line newlines
are not counted against the ceiling. -/
theorem c5_counterexample :
    2 * 5767168 = 11 * 1024 * 1024 ∧
    (StreamAndLog "/h" worldEmpty ctxC5 ⟨List.replicate 5767168 abLine, none⟩).toOption.map
        (fun st => (sinkBytes st, noticeCount st, st.total))
      = some (15728683, 1, 10485760) ∧
    MaxOutputSize + truncationNotice.utf8ByteSize < 15728683 := by
  refine ⟨by norm_num, ?_, ?_⟩
  · obtain ⟨st, hrun, hsb, hnc, ht⟩ := c5_run
    rw [hrun]
    show some (sinkBytes st, noticeCount st, st.total) = some (15728683, 1, 10485760)
    rw [hsb, hnc, ht]
  · rw [show MaxOutputSize = 10485760 from rfl,
      show truncationNotice.utf8ByteSize = 43 from rfl]
    norm_num

/-- C5 amended: when the cumulative counted-content ceiling (10MB of line
or extracted-text bytes, newlines excluded) has been reached, the next loop
iteration appends exactly one truncation notice to the sink and stops the
drain; an 11MB plain-text stream therefore returns normally (no error) with
exactly one truncation notice and at most 10MB of counted content bytes —
though the sink itself may exceed 10MB by the uncounted newlines. -/
theorem c5_truncation_amended (home : String) (s : DrainState) (l : RLine)
    (ls : List RLine) (hf : s.format ≠ "") (hb : s.broke = false)
    (hcap : s.total ≥ MaxOutputSize) :
    (drainLoop home s (l :: ls)
        = { s with
            lineNumber := s.lineNumber + 1
            sink := s.sink ++ [truncationNotice]
            broke := true }) ∧
    ((StreamAndLog "/h" worldEmpty ctxC5 ⟨List.replicate 5767168 abLine, none⟩).toOption.map
        (fun st => (noticeCount st, st.total))
      = some (1, 10485760)) ∧
    10485760 ≤ MaxOutputSize := by
  refine ⟨?_, ?_, by rw [show MaxOutputSize = 10485760 from rfl]⟩
  · rw [drainLoop]
    rw [stepLine_cap home s l hf hcap]
    rw [if_pos rfl]
  · obtain ⟨st, hrun, hsb, hnc, ht⟩ := c5_run
    rw [hrun]
    show some (noticeCount st, st.total) = some (1, 10485760)
    rw [hnc, ht]

/-- An empty line before format detection takes the default arm: only the
sink, the line counter (and nothing else) change. -/
theorem stepLine_empty_line (home : String) (s : DrainState) (l : RLine)
    (hraw : l.raw = "") (hf : s.format = "") (hcap : s.total < MaxOutputSize) :
    stepLine home s l = defaultLine { s with lineNumber := s.lineNumber + 1 } "" := by
  unfold stepLine
  dsimp only
  have hne1 : ¬ (s.format = "" ∧ l.raw ≠ "") := by
    rintro ⟨-, hr⟩
    exact hr hraw
  rw [if_neg hne1]
  have hne2 : ¬ (({ s with lineNumber := s.lineNumber + 1 } : DrainState).total
      ≥ MaxOutputSize) := by
    show ¬ (s.total ≥ MaxOutputSize)
    omega
  rw [if_neg hne2]
  rw [if_neg (by rw [hf]; decide)]
  rw [if_neg (by rw [hf]; decide)]
  rw [hraw]

/-- While only empty lines have been read (format never detected), the loop
performs no filesystem side effect: the world, the effect trace, the log
handle, the context and all format/error flags are untouched. -/
theorem drainLoop_empty_lines (home : String) :
    ∀ (ls : List RLine) (s : DrainState), (∀ l ∈ ls, l.raw = "") →
      s.format = "" → s.broke = false → s.total < MaxOutputSize →
    (drainLoop home s ls).w = s.w ∧ (drainLoop home s ls).effects = s.effects ∧
    (drainLoop home s ls).logPath = s.logPath ∧
    (drainLoop home s ls).format = "" ∧
    (drainLoop home s ls).hasError = s.hasError ∧
    (drainLoop home s ls).sidSaved = s.sidSaved ∧
    (drainLoop home s ls).pending = s.pending ∧
    (drainLoop home s ls).c = s.c ∧
    (drainLoop home s ls).broke = false ∧
    (drainLoop home s ls).total = s.total := by
  intro ls
  induction ls with
  | nil =>
    intro s _ hf hb _
    exact ⟨rfl, rfl, rfl, hf, rfl, rfl, rfl, rfl, hb, rfl⟩
  | cons l ls ih =>
    intro s hl hf hb hcap
    have hstep := stepLine_empty_line home s l (hl l (by simp)) hf hcap
    have hb2 : (stepLine home s l).broke = false := by
      rw [hstep]
      unfold defaultLine
      exact hb
    rw [drainLoop_cons_not_broke home s l ls hb2]
    have ihs := ih (stepLine home s l) (fun x hx => hl x (by simp [hx]))
      (by rw [hstep]; unfold defaultLine; exact hf)
      hb2
      (by rw [hstep]
          show ({ s with lineNumber := s.lineNumber + 1 } : DrainState).total
            + ("" : String).utf8ByteSize < MaxOutputSize
          show s.total + ("" : String).utf8ByteSize < MaxOutputSize
          rw [show ("" : String).utf8ByteSize = 0 from rfl]
          omega)
    obtain ⟨hw, heff, hlog, hfmt, herr, hsaved, hpend, hc, hbroke, htot⟩ := ihs
    rw [hstep] at hw heff hlog hfmt herr hsaved hpend hc hbroke htot
    unfold defaultLine at hw heff hlog hfmt herr hsaved hpend hc hbroke htot
    dsimp only at hw heff hlog hfmt herr hsaved hpend hc hbroke htot
    rw [show ("" : String).utf8ByteSize = 0 from rfl] at htot
    rw [hstep]
    unfold defaultLine
    dsimp only
    rw [show ("" : String).utf8ByteSize = 0 from rfl]
    exact ⟨hw, heff, hlog, hfmt, herr, hsaved, hpend, hc, hbroke, by omega⟩

/-- C6 amended: while only empty lines have been read — in particular at
every point before the output format is first detected — no directory
creation, Context Snapshot write, or log-file opening occurs; however, for
a stream with no non-empty lines at all, end-of-stream finalization still
attempts exactly one Context Snapshot write (no directory creation and no
log-file open occur, and the write succeeds only if the directory already
exists). -/
theorem c6_deferral_amended (home : String) (w : World) (c : Context)
    (lines : List RLine) (hl : ∀ l ∈ lines, l.raw = "") :
    (∀ (s : DrainState), s.format = "" → s.broke = false →
        s.total < MaxOutputSize →
        (drainLoop home s lines).w = s.w ∧
        (drainLoop home s lines).effects = s.effects ∧
        (drainLoop home s lines).logPath = s.logPath) ∧
    ((StreamAndLog home w c ⟨lines, none⟩).toOption.map
        (fun st => (st.effects, st.logPath, st.w))
      = some ([Eff.saveCtxEff (joinPath c.DIR contextFileName) (saveContext w c).2],
              none, (saveContext w c).1)) := by
  constructor
  · intro s hf hb hcap
    obtain ⟨hw, heff, hlog, -, -, -, -, -, -, -⟩ :=
      drainLoop_empty_lines home lines s hl hf hb hcap
    exact ⟨hw, heff, hlog⟩
  · obtain ⟨hw, heff, hlog, -, herr, hsaved, hpend, hc, hbroke, -⟩ :=
      drainLoop_empty_lines home lines (initDrain w c) hl rfl rfl
        (show (0 : Nat) < MaxOutputSize by decide)
    unfold StreamAndLog
    dsimp only
    have hcond : ¬ ((drainLoop home (initDrain w c) lines).broke = false ∧
        (Option.isSome (none : Option String)) = true) := by
      rintro ⟨-, habs⟩
      exact absurd habs (by decide)
    rw [if_neg hcond]
    show some ((finalizeDrain (drainLoop home (initDrain w c) lines)).effects,
               (finalizeDrain (drainLoop home (initDrain w c) lines)).logPath,
               (finalizeDrain (drainLoop home (initDrain w c) lines)).w)
      = some ([Eff.saveCtxEff (joinPath c.DIR contextFileName) (saveContext w c).2],
              none, (saveContext w c).1)
    unfold finalizeDrain
    rw [if_pos ⟨herr, hsaved⟩]
    rw [if_neg (by rintro ⟨hne, -⟩; exact hne hpend)]
    unfold saveCtxAttempt
    dsimp only
    rw [heff, hlog, hw, hc]
    rfl

/-- Witness for C6 amended, at a one-empty-line stream against a
pre-existing conversation directory. -/
theorem c6_deferral_amended_witness :
    (∀ l ∈ [(⟨"", none⟩ : RLine)], l.raw = "") ∧
    ((∀ (s : DrainState), s.format = "" → s.broke = false →
        s.total < MaxOutputSize →
        (drainLoop "/h" s [(⟨"", none⟩ : RLine)]).w = s.w ∧
        (drainLoop "/h" s [(⟨"", none⟩ : RLine)]).effects = s.effects ∧
        (drainLoop "/h" s [(⟨"", none⟩ : RLine)]).logPath = s.logPath) ∧
     ((StreamAndLog "/h" worldC6 ctxC6 ⟨[(⟨"", none⟩ : RLine)], none⟩).toOption.map
        (fun st => (st.effects, st.logPath, st.w))
      = some ([Eff.saveCtxEff (joinPath ctxC6.DIR contextFileName)
                (saveContext worldC6 ctxC6).2],
              none, (saveContext worldC6 ctxC6).1))) :=
  have hl : ∀ l ∈ [(⟨"", none⟩ : RLine)], l.raw = "" := by
    intro l h
    rw [List.mem_singleton] at h
    rw [h]
  ⟨hl, c6_deferral_amended "/h" worldC6 ctxC6 [(⟨"", none⟩ : RLine)] hl⟩

/-- Witness for C5 amended, at a state sitting exactly at the ceiling. -/
theorem c5_truncation_amended_witness :
    (sCapWit.format ≠ "" ∧ sCapWit.broke = false ∧ sCapWit.total ≥ MaxOutputSize) ∧
    ((drainLoop "/h" sCapWit [abLine]
        = { sCapWit with
            lineNumber := sCapWit.lineNumber + 1
            sink := sCapWit.sink ++ [truncationNotice]
            broke := true }) ∧
     ((StreamAndLog "/h" worldEmpty ctxC5 ⟨List.replicate 5767168 abLine, none⟩).toOption.map
        (fun st => (noticeCount st, st.total))
      = some (1, 10485760)) ∧
     10485760 ≤ MaxOutputSize) :=
  ⟨⟨by decide, rfl, by decide⟩,
   c5_truncation_amended "/h" sCapWit abLine [] (by decide) rfl (by decide)⟩

/-! ## C9: the context frame of the lifecycle and interpreter -/

theorem ctxFrame_refl (c : Context) : ctxFrame c c :=
  ⟨rfl, rfl, rfl, rfl, rfl, rfl, rfl, rfl⟩

theorem sidOnlyFrame_refl (c : Context) : sidOnlyFrame c c :=
  ⟨ctxFrame_refl c, rfl⟩

/-- Rewriting only the `SID` field respects the interpreter's frame. -/
theorem sidOnlyFrame_setSID (c : Context) (x : ID) :
    sidOnlyFrame { c with SID := x } c :=
  ⟨⟨rfl, rfl, rfl, rfl, rfl, rfl, rfl, rfl⟩, rfl⟩

theorem sidOnlyFrame_trans {a b c : Context} (h1 : sidOnlyFrame a b)
    (h2 : sidOnlyFrame b c) : sidOnlyFrame a c := by
  obtain ⟨⟨h1a, h1b, h1c, h1d, h1e, h1f, h1g, h1h⟩, h1i⟩ := h1
  obtain ⟨⟨h2a, h2b, h2c, h2d, h2e, h2f, h2g, h2h⟩, h2i⟩ := h2
  exact ⟨⟨h1a.trans h2a, h1b.trans h2b, h1c.trans h2c, h1d.trans h2d,
    h1e.trans h2e, h1f.trans h2f, h1g.trans h2g, h1h.trans h2h⟩, h1i.trans h2i⟩

/-- The per-line flush at most rewrites the context's `SID`. -/
theorem jsonFlushSID_c_frame (s : DrainState) (t : Context) (h : s.c = t) :
    sidOnlyFrame (jsonFlushSID s).c t := by
  subst h
  unfold jsonFlushSID
  split
  · exact sidOnlyFrame_setSID _ _
  · exact sidOnlyFrame_refl _

/-- The json arm at most rewrites the context's `SID`. -/
theorem jsonLine_c_frame (s : DrainState) (l : RLine) :
    sidOnlyFrame (jsonLine s l).c s.c := by
  unfold jsonLine
  split
  · exact sidOnlyFrame_refl _
  · dsimp only
    split
    · split <;> (split <;> exact sidOnlyFrame_refl _)
    · rw [emitText_c]
      apply jsonFlushSID_c_frame
      repeat' split
      all_goals first
        | rfl
        | simp only [collectSID_c, logWrite_c]

/-- One loop iteration at most rewrites the context's `SID`. -/
theorem stepLine_c_frame (home : String) (s : DrainState) (l : RLine) :
    sidOnlyFrame (stepLine home s l).c s.c := by
  unfold stepLine
  dsimp only
  split
  · split
    · exact sidOnlyFrame_refl _
    · split
      · exact jsonLine_c_frame _ l
      · split
        · refine sidOnlyFrame_trans ?_ (sidOnlyFrame_refl s.c)
          simp only [textLine_c]
          exact sidOnlyFrame_refl _
        · exact sidOnlyFrame_refl _
  · split
    · exact sidOnlyFrame_refl _
    · split
      · exact jsonLine_c_frame _ l
      · split
        · refine sidOnlyFrame_trans ?_ (sidOnlyFrame_refl s.c)
          simp only [textLine_c]
          exact sidOnlyFrame_refl _
        · exact sidOnlyFrame_refl _

/-- The whole scan loop at most rewrites the context's `SID`. -/
theorem drainLoop_c_frame (home : String) (ls : List RLine) :
    ∀ (s : DrainState), sidOnlyFrame (drainLoop home s ls).c s.c := by
  induction ls with
  | nil => intro s; exact sidOnlyFrame_refl _
  | cons l ls ih =>
    intro s
    unfold drainLoop
    dsimp only
    split
    · exact stepLine_c_frame home s l
    · exact sidOnlyFrame_trans (ih (stepLine home s l)) (stepLine_c_frame home s l)

/-- Finalization at most rewrites the context's `SID`. -/
theorem finalizeDrain_c_frame (s : DrainState) :
    sidOnlyFrame (finalizeDrain s).c s.c := by
  unfold finalizeDrain
  split
  · split
    · exact sidOnlyFrame_setSID _ _
    · exact sidOnlyFrame_refl _
  · exact sidOnlyFrame_refl _

/-- `StreamAndLog` at most rewrites the context's `SID`; on failure the
caller's context is untouched. -/
theorem streamAndLog_c_frame (home : String) (w : World) (c : Context)
    (inp : StreamInput) :
    sidOnlyFrame (ctxOfDrain (StreamAndLog home w c inp) c) c := by
  unfold StreamAndLog
  dsimp only
  split
  · exact sidOnlyFrame_refl c
  · exact sidOnlyFrame_trans (finalizeDrain_c_frame _)
      (drainLoop_c_frame home inp.lines (initDrain w c))

/-- `buildSessionFlags` at most rewrites the context's `SID`. -/
theorem buildSessionFlags_c_frame (home : String) (w : World)
    (ids : List String) (c : Context) (genus : GenusConfig)
    (pv : List (String × String)) :
    sidOnlyFrame (buildSessionFlags home w ids c genus pv).2.2.1 c := by
  unfold buildSessionFlags
  dsimp only
  split
  · exact sidOnlyFrame_refl c
  · split
    · split
      · exact sidOnlyFrame_refl c
      · exact sidOnlyFrame_refl c
    · split
      · exact sidOnlyFrame_setSID _ _
      · exact sidOnlyFrame_refl c

/-- `CallGenus` preserves every context field other than `SID` and `ENV`;
on failure the caller's context is untouched. -/
theorem callGenus_c_frame (home : String) (w : World)
    (cfgResult : Except String Config) (ids : List String) (c : Context)
    (cmdArgs : String) (stdinProvided : Bool) :
    ctxFrame (ctxOfCall (CallGenus home w cfgResult ids c cmdArgs stdinProvided) c)
      c := by
  unfold CallGenus
  split
  · exact ctxFrame_refl c
  · split
    · exact ctxFrame_refl c
    · split
      · exact ctxFrame_refl c
      · split
        · exact ctxFrame_refl c
        · split
          · exact ctxFrame_refl c
          · dsimp only
            exact (buildSessionFlags_c_frame home w ids c _ _).1

/-- C9: across one invocation, the subprocess-lifecycle and
streaming-interpreter operations leave the context's identity fields other
than `SessionID` and the extension map unchanged. `StreamAndLog` and
`buildSessionFlags` may rewrite only `SID` (they never touch `ENV`), and
`CallGenus` may rewrite only `SID` and `ENV` — in particular `CID` (the
ConversationID) survives all three untouched, also on every error path,
where the caller's context is returned as-is. -/
theorem c9_frame (home : String) (w : World) (c : Context) (inp : StreamInput)
    (ids : List String) (genus : GenusConfig) (pv : List (String × String))
    (cfgResult : Except String Config) (cmdArgs : String)
    (stdinProvided : Bool) :
    ctxFrame (ctxOfDrain (StreamAndLog home w c inp) c) c ∧
    (ctxOfDrain (StreamAndLog home w c inp) c).ENV = c.ENV ∧
    ctxFrame ((buildSessionFlags home w ids c genus pv).2.2.1) c ∧
    ((buildSessionFlags home w ids c genus pv).2.2.1).ENV = c.ENV ∧
    ctxFrame (ctxOfCall (CallGenus home w cfgResult ids c cmdArgs stdinProvided) c)
      c :=
  ⟨(streamAndLog_c_frame home w c inp).1,
   (streamAndLog_c_frame home w c inp).2,
   (buildSessionFlags_c_frame home w ids c genus pv).1,
   (buildSessionFlags_c_frame home w ids c genus pv).2,
   callGenus_c_frame home w cfgResult ids c cmdArgs stdinProvided⟩

end Aimux
